import Mathlib

set_option maxHeartbeats 1000000
set_option allowUnsafeReducibility true
set_option linter.unusedVariables false
set_option linter.unnecessarySeqFocus false

attribute [local semireducible] Rat.mul Rat.add Rat.sub Rat.inv

/-!
Shallow embedding of the SmartFarmAI decision engine
(`utils/resource_management.py`, `utils/crop_recommendation.py`) in Lean 4.

Conventions of the embedding:
* Python floats are modelled as exact rationals (`ℚ`).
* Python dictionaries are modelled as association lists `List (String × α)`;
  lookup takes the first matching key, which agrees with dictionary semantics
  because a Python dict never holds a duplicate key.  Where a proof genuinely
  needs the no-duplicate-keys invariant of a dict it is taken as a hypothesis.
* Python code that can raise an exception is modelled with `Option`: the
  function returns `none` exactly on the inputs where the Python code raises.
-/

/-- Association-list lookup, the model of Python `dict[k]` / `dict.get(k)`. -/
def lookupA {α : Type} (m : List (String × α)) (k : String) : Option α :=
  (m.find? (fun p => decide (p.1 = k))).map (fun p => p.2)

abbrev QMap := List (String × ℚ)

/-! ## `calculate_optimal_resource_allocation` (resource_management.py lines 443-539) -/

/-- Result dictionary of `calculate_optimal_resource_allocation`.
On the early-exit branch (empty pool or no field requirements) the Python
function returns a dictionary holding only empty `allocation` and `shortages`;
we model that branch as the all-empty record. -/
structure AllocationResult where
  allocation : List (String × QMap)
  shortages : QMap
  total_requirements : QMap
  allocated_totals : QMap
deriving Repr, DecidableEq

/-- Sum of the values stored under one key of an association list (a dict
holds the key at most once, so this is the dict entry or 0). -/
def keySum (e : QMap) (rt : String) : ℚ :=
  ((e.filter (fun p => decide (p.1 = rt))).map (fun p => p.2)).sum

/-- First pass (lines 470-475): total ideal requirement of one resource type,
summed over every field that requests it.  Only resource types present in the
available pool are tracked by the Python code; this function is only applied
to such keys. -/
def reqTotal (fieldReqs : List (String × QMap)) (rt : String) : ℚ :=
  (fieldReqs.map (fun fr => keySum fr.2 rt)).sum

/-- Keys of the available-resources dictionary. -/
def availKeys (available : QMap) : List String :=
  available.map (fun p => p.1)

/-- Lines 477-486: the `resource_shortage_pct` dictionary.  A resource type in
the pool is short when the total requirement exceeds availability and is
positive; the recorded value is `1 - available / totalRequired`. -/
def resourceShortagePct (available : QMap) (fieldReqs : List (String × QMap)) : QMap :=
  available.filterMap (fun p =>
    let tot := reqTotal fieldReqs p.1
    let av := ((lookupA available p.1).getD 0)
    if tot > av ∧ tot > 0 then some (p.1, 1 - av / tot) else none)

/-- Lines 463 and 486: the `shortages` dictionary, zero for every pool
resource except the short ones, where it is `totalRequired - available`. -/
def shortagesOf (available : QMap) (fieldReqs : List (String × QMap)) : QMap :=
  available.map (fun p =>
    (p.1, if reqTotal fieldReqs p.1 > (lookupA available p.1).getD 0 ∧ reqTotal fieldReqs p.1 > 0
          then reqTotal fieldReqs p.1 - (lookupA available p.1).getD 0 else 0))

/-- The `total_requirements` dictionary (lines 470-475). -/
def totalRequirementsOf (available : QMap) (fieldReqs : List (String × QMap)) : QMap :=
  available.map (fun p => (p.1, reqTotal fieldReqs p.1))

/-- Lines 466-467: when `priorities` is `None` every field gets priority 1;
otherwise the caller's dictionary is used as is. -/
def effPriorities (fieldReqs : List (String × QMap)) :
    Option (List (String × ℚ)) → List (String × ℚ)
  | none => fieldReqs.map (fun fr => (fr.1, (1 : ℚ)))
  | some ps => ps

/-- Lines 496-511: allocated amount for one `(field, resource)` pair, given the
field's priority.  With a shortage the reduction factor is
`shortagePct * (1 - priority / max(priorities.values()))` capped at 0.9;
without one the ideal amount is allocated in full.  The `getD 1` default for
the maximum is never exercised on a run that does not raise: the crash
predicate below returns `none` for the whole call in exactly the situations
where Python would raise (`max` of an empty dict, or division by a zero
maximum). -/
def allocAmount (spcts prios : List (String × ℚ)) (priority ideal : ℚ) (rt : String) : ℚ :=
  match lookupA spcts rt with
  | none => ideal
  | some spct =>
      let m := ((prios.map (fun p => p.2)).max?).getD 1
      ideal * (1 - min (spct * (1 - priority / m)) (9/10))

/-- True when the second pass reaches the shortage branch (line 496) at least
once, i.e. some field requests a pool resource that is short. -/
def hitsShortageBranch (available : QMap) (fieldReqs : List (String × QMap))
    (spcts : QMap) : Bool :=
  fieldReqs.any (fun fr => fr.2.any (fun p =>
    decide (p.1 ∈ availKeys available) && (lookupA spcts p.1).isSome))

/-- True when evaluating the shortage branch raises in Python: `max()` of an
empty priority dictionary raises `ValueError`, and a maximum of exactly 0
makes `priority / max(...)` raise `ZeroDivisionError`. -/
def prioDegenerate (prios : List (String × ℚ)) : Bool :=
  match (prios.map (fun p => p.2)).max? with
  | none => true
  | some m => decide (m = 0)

/-- Second pass (lines 489-513): the allocation before the conservation check,
field by field.  Resource types absent from the pool are skipped
(`continue`, line 494). -/
def preAllocation (available : QMap) (fieldReqs : List (String × QMap))
    (spcts prios : List (String × ℚ)) : List (String × QMap) :=
  fieldReqs.map (fun fr =>
    (fr.1, (fr.2.filter (fun p => decide (p.1 ∈ availKeys available))).map
      (fun p => (p.1, allocAmount spcts prios ((lookupA prios fr.1).getD 1) p.2 p.1))))

/-- Lines 515-520: sum of the allocated quantities of one resource type. -/
def allocTotal (alloc : List (String × QMap)) (rt : String) : ℚ :=
  (alloc.map (fun fa => keySum fa.2 rt)).sum

/-- The `allocated_totals` dictionary (computed before the defensive scaling
and returned unchanged by the Python code). -/
def allocatedTotals (available : QMap) (alloc : List (String × QMap)) : QMap :=
  available.map (fun p => (p.1, allocTotal alloc p.1))

/-- The factor a resource type's allocations are multiplied by in the
conservation step (lines 522-532): `available / totalAllocated` when the
pre-scaling total exceeds availability and is positive, otherwise 1 (the
entry is left untouched, i.e. multiplied by 1). -/
def scaleFactor (available totals : QMap) (rt : String) : ℚ :=
  let tot := ((lookupA totals rt).getD 0)
  let av := ((lookupA available rt).getD 0)
  if tot > av ∧ tot > 0 then av / tot else 1

/-- Lines 522-532: the defensive conservation step applied entrywise. -/
def scaleAllocation (available totals : QMap) (alloc : List (String × QMap)) :
    List (String × QMap) :=
  alloc.map (fun fa => (fa.1, fa.2.map (fun p =>
    (p.1, p.2 * scaleFactor available totals p.1))))

/-- `calculate_optimal_resource_allocation(available_resources,
field_requirements, priorities)` (lines 443-539).  Returns `none` exactly when
the Python function raises (shortage branch reached with an empty or all-zero
priority dictionary), `some` of the result dictionary otherwise. -/
def calculate_optimal_resource_allocation (available : QMap)
    (fieldReqs : List (String × QMap)) (priorities : Option (List (String × ℚ))) :
    Option AllocationResult :=
  if available = [] ∨ fieldReqs = [] then
    some ⟨[], [], [], []⟩
  else
    let prios := effPriorities fieldReqs priorities
    let spcts := resourceShortagePct available fieldReqs
    if hitsShortageBranch available fieldReqs spcts && prioDegenerate prios then
      none
    else
      let pre := preAllocation available fieldReqs spcts prios
      let totals := allocatedTotals available pre
      some ⟨scaleAllocation available totals pre, shortagesOf available fieldReqs,
            totalRequirementsOf available fieldReqs, totals⟩

example :
    calculate_optimal_resource_allocation [("Water", 100)]
      [("FieldA", [("Water", 80)]), ("FieldB", [("Water", 80)])]
      (some [("FieldA", 2), ("FieldB", 1)]) =
    some ⟨[("FieldA", [("Water", 1600/29)]), ("FieldB", [("Water", 1300/29)])],
          [("Water", 60)], [("Water", 160)], [("Water", 145)]⟩ := by decide

/-! ## `get_crop_recommendations` (crop_recommendation.py lines 5-376)

The Python function is not a function of its arguments alone: it reads the
wall clock (`datetime.now().month`, line 285) and the process-wide unseeded
`random` generator (`random.choice` in `get_market_forecast`, line 418, and
`random.choices` in `get_price_trend`, line 442).  These ambient effects are
made explicit as a `RandEnv` argument: `month` is the current month and
`choice l` / `choicesW l w` give the index the random generator picks from a
(weighted) population.  Indices are taken modulo the population size, which is
exactly the range `random.choice` / `random.choices` can return from. -/

/-- Ambient state read by `get_crop_recommendations`: the current month and
the draws of the unseeded `random` module. -/
structure RandEnv where
  month : Nat
  choice : List String → Nat
  choicesW : List String → List ℚ → Nat

/-- Lines 284-293: the current season from the current month. -/
def currentSeason (month : Nat) : String :=
  if 3 ≤ month ∧ month ≤ 5 then "Spring"
  else if 6 ≤ month ∧ month ≤ 8 then "Summer"
  else if 9 ≤ month ∧ month ≤ 11 then "Fall"
  else "Winter"

/-- The `crop_demand` table of `get_market_forecast` (lines 391-402), with the
`.get(crop, ["Medium"])` default. -/
def cropDemandTable (crop : String) : List String :=
  if crop = "Maize" then ["Medium", "High"]
  else if crop = "Rice" then ["Medium", "High"]
  else if crop = "Wheat" then ["Medium", "High"]
  else if crop = "Soybeans" then ["Medium", "High"]
  else if crop = "Tomatoes" then ["Medium", "High"]
  else if crop = "Potatoes" then ["Medium"]
  else if crop = "Cotton" then ["Medium", "Low", "High"]
  else if crop = "Sunflower" then ["Medium", "Low"]
  else if crop = "Beans" then ["Medium"]
  else if crop = "Cassava" then ["Medium", "Low"]
  else ["Medium"]

/-- Lines 408-416: `int(weights[demand] * 10)` for the fixed weight table
`{Low: 0.2, Medium: 0.5, High: 0.3}`.  The catch-all 0 is unreachable from
`cropDemandTable` (Python would raise `KeyError` on any other string). -/
def demandCount (demand : String) : Nat :=
  if demand = "Low" then 2
  else if demand = "Medium" then 5
  else if demand = "High" then 3
  else 0

/-- `get_market_forecast(crop)` (lines 378-418): builds the weighted
population and lets the random draw pick one member. -/
def get_market_forecast (env : RandEnv) (crop : String) : String :=
  let weighted := (cropDemandTable crop).flatMap (fun d => List.replicate (demandCount d) d)
  (weighted.getD (env.choice weighted % weighted.length) (""))

/-- `get_price_trend(crop)` (lines 420-442). -/
def get_price_trend (env : RandEnv) (crop : String) : String :=
  let trends := ["Declining", "Stable", "Rising"]
  let weights : List ℚ :=
    if crop ∈ ["Maize", "Wheat", "Rice", "Soybeans"] then [1/5, 2/5, 2/5]
    else if crop ∈ ["Cotton"] then [3/10, 1/2, 1/5]
    else [1/5, 1/2, 3/10]
  (trends.getD (env.choicesW trends weights % trends.length) (""))

/-- One entry of the `crops_database` dictionary (lines 22-282). -/
structure CropInfo where
  soil_types : List String
  temperature_range : ℚ × ℚ
  rainfall_range : ℚ × ℚ
  growing_season : List String
  days_to_harvest : String
  investment_level : String
  water_requirements : String
  fertilizer_needs : String
  market_demand : String
  typical_yield : String
  price_trend : String
  cultivation_tips : List String
  risks : List String
deriving Repr, DecidableEq, Inhabited

/-- The `climate_data` dictionary: only the keys `temperature` and
`annual_rainfall` are read (lines 296-297), with `.get` defaults 25 and
1000. -/
structure ClimateData where
  temperature : Option ℚ
  annual_rainfall : Option ℚ
deriving Repr, DecidableEq

/-- The `crops_database` literal (lines 22-282).  The `market_demand` and
`price_trend` fields are filled by calls to `get_market_forecast` and
`get_price_trend` while the dictionary literal is evaluated, so they depend on
the random environment. -/
def crops_database (env : RandEnv) : List (String × CropInfo) :=
  [("Maize",
    { soil_types := ["Loam", "Sandy Loam", "Clay Loam"]
      temperature_range := (18, 35)
      rainfall_range := (500, 1500)
      growing_season := ["Spring", "Summer"]
      days_to_harvest := "90-120 days"
      investment_level := "Medium"
      water_requirements := "Medium"
      fertilizer_needs := "Medium-High (N)"
      market_demand := get_market_forecast env ("Maize")
      typical_yield := "5-10 tons/ha"
      price_trend := get_price_trend env ("Maize")
      cultivation_tips := [
        "Plant when soil temperature reaches at least 16°C.",
        "Optimal plant spacing is 60-75 cm between rows and 20-25 cm between plants.",
        "Requires good nitrogen fertilization - apply in split doses.",
        "Control weeds during the first 6 weeks.",
        "Monitor for fall armyworm, a common pest in maize."]
      risks := [
        "Susceptible to drought during flowering stage.",
        "Vulnerable to corn borers and armyworms.",
        "Market prices can be volatile."] }),
   ("Rice",
    { soil_types := ["Clay", "Clay Loam", "Silty Clay"]
      temperature_range := (20, 35)
      rainfall_range := (1000, 2500)
      growing_season := ["Spring", "Summer"]
      days_to_harvest := "100-150 days"
      investment_level := "Medium-High"
      water_requirements := "High"
      fertilizer_needs := "Medium (N, P, K)"
      market_demand := get_market_forecast env ("Rice")
      typical_yield := "4-7 tons/ha"
      price_trend := get_price_trend env ("Rice")
      cultivation_tips := [
        "Prepare land by puddling to retain water.",
        "Maintain 5-10 cm of standing water during most of the growing period.",
        "Apply fertilizer in split doses - at transplanting, tillering, and heading stages.",
        "Consider direct seeding in regions with labor shortages.",
        "Drain field 10-15 days before harvest."]
      risks := [
        "Requires abundant water supply.",
        "Susceptible to blast disease and stem borers.",
        "Labor intensive for transplanting and harvesting.",
        "Vulnerable to flooding events."] }),
   ("Wheat",
    { soil_types := ["Loam", "Clay Loam", "Silt Loam"]
      temperature_range := (15, 30)
      rainfall_range := (400, 1200)
      growing_season := ["Winter", "Spring"]
      days_to_harvest := "120-150 days"
      investment_level := "Medium"
      water_requirements := "Medium"
      fertilizer_needs := "Medium (N, P)"
      market_demand := get_market_forecast env ("Wheat")
      typical_yield := "3-6 tons/ha"
      price_trend := get_price_trend env ("Wheat")
      cultivation_tips := [
        "Optimal sowing depth is 3-5 cm.",
        "Timing of nitrogen application is critical - apply at sowing, tillering, and flowering.",
        "Control weeds early in the growing season.",
        "Winter wheat varieties need a period of cold temperatures for proper development.",
        "Harvest when grain moisture content is below 14%."]
      risks := [
        "Susceptible to rust diseases.",
        "Frost risk for spring wheat.",
        "Drought during grain filling stage reduces yield significantly.",
        "Global market price fluctuations."] }),
   ("Soybeans",
    { soil_types := ["Loam", "Clay Loam", "Silt Loam"]
      temperature_range := (20, 32)
      rainfall_range := (500, 1500)
      growing_season := ["Spring", "Summer"]
      days_to_harvest := "90-120 days"
      investment_level := "Medium"
      water_requirements := "Medium"
      fertilizer_needs := "Low (P, K)"
      market_demand := get_market_forecast env ("Soybeans")
      typical_yield := "2-4 tons/ha"
      price_trend := get_price_trend env ("Soybeans")
      cultivation_tips := [
        "Inoculate seeds with Rhizobium bacteria if planting in new fields.",
        "Optimal planting depth is 2.5-5 cm.",
        "Plant when soil temperature is at least 13°C.",
        "Rotate with corn or small grains.",
        "Avoid over-fertilization with nitrogen as soybeans fix their own."]
      risks := [
        "Susceptible to soybean cyst nematode and various fungal diseases.",
        "Sensitive to drought during flowering and pod filling.",
        "Vulnerable to deer and other wildlife damage.",
        "Global market competition affects prices."] }),
   ("Tomatoes",
    { soil_types := ["Sandy Loam", "Loam", "Clay Loam"]
      temperature_range := (20, 35)
      rainfall_range := (400, 1200)
      growing_season := ["Spring", "Summer"]
      days_to_harvest := "60-100 days"
      investment_level := "High"
      water_requirements := "Medium-High"
      fertilizer_needs := "Medium (N, P, K, Ca)"
      market_demand := get_market_forecast env ("Tomatoes")
      typical_yield := "25-80 tons/ha"
      price_trend := get_price_trend env ("Tomatoes")
      cultivation_tips := [
        "Start seeds indoors 6-8 weeks before transplanting.",
        "Stake or cage determinate varieties; trellis indeterminate varieties.",
        "Consistent watering prevents blossom end rot.",
        "Prune suckers for indeterminate varieties to improve air circulation.",
        "Avoid overhead watering to prevent disease."]
      risks := [
        "Vulnerable to numerous diseases including early and late blight.",
        "Requires careful handling during harvest to prevent damage.",
        "Market prices fluctuate considerably with seasonal supply.",
        "Storage and transportation challenges for fresh market."] })]
  ++
  [("Potatoes",
    { soil_types := ["Sandy Loam", "Loam", "Silt Loam"]
      temperature_range := (15, 25)
      rainfall_range := (500, 1200)
      growing_season := ["Spring", "Summer"]
      days_to_harvest := "70-120 days"
      investment_level := "Medium-High"
      water_requirements := "Medium"
      fertilizer_needs := "Medium-High (N, P, K)"
      market_demand := get_market_forecast env ("Potatoes")
      typical_yield := "20-50 tons/ha"
      price_trend := get_price_trend env ("Potatoes")
      cultivation_tips := [
        "Use certified seed potatoes to avoid diseases.",
        "Plant tubers 10-15 cm deep, 25-30 cm apart.",
        "Hill soil around plants as they grow to prevent greening.",
        "Maintain consistent soil moisture, especially during tuber formation.",
        "Stop watering when foliage begins to die back to allow skins to set."]
      risks := [
        "Susceptible to late blight, scab, and Colorado potato beetle.",
        "Vulnerable to frost damage.",
        "Storage requirements for long-term marketability.",
        "Quality issues affect market value significantly."] }),
   ("Cotton",
    { soil_types := ["Loam", "Sandy Loam", "Clay Loam"]
      temperature_range := (20, 38)
      rainfall_range := (500, 1500)
      growing_season := ["Spring", "Summer"]
      days_to_harvest := "150-180 days"
      investment_level := "High"
      water_requirements := "Medium-High"
      fertilizer_needs := "High (N, P, K)"
      market_demand := get_market_forecast env ("Cotton")
      typical_yield := "0.8-1.5 tons/ha (lint)"
      price_trend := get_price_trend env ("Cotton")
      cultivation_tips := [
        "Plant when soil temperature exceeds 18°C.",
        "Good seedbed preparation is essential for uniform emergence.",
        "Apply nitrogen in split applications.",
        "Monitor and manage insect pests throughout the season.",
        "Use defoliants before harvest to facilitate mechanical picking."]
      risks := [
        "Labor intensive or requires specialized harvesting equipment.",
        "Susceptible to bollworms and boll weevils.",
        "Vulnerable to late season rains which can reduce fiber quality.",
        "Price volatility in global markets."] }),
   ("Sunflower",
    { soil_types := ["Loam", "Sandy Loam", "Clay Loam"]
      temperature_range := (18, 35)
      rainfall_range := (400, 1000)
      growing_season := ["Spring", "Summer"]
      days_to_harvest := "80-120 days"
      investment_level := "Medium"
      water_requirements := "Medium-Low"
      fertilizer_needs := "Medium (N, P)"
      market_demand := get_market_forecast env ("Sunflower")
      typical_yield := "1.5-3 tons/ha (seeds)"
      price_trend := get_price_trend env ("Sunflower")
      cultivation_tips := [
        "Plant when soil temperature reaches 10°C at seeding depth.",
        "Optimal plant spacing is 60-75 cm between rows, 20-30 cm between plants.",
        "Sunflowers have deep roots and can access nutrients and moisture from lower soil profiles.",
        "Rotate with cereal crops to break disease cycles.",
        "Harvest when back of heads turn yellow to brown and seed moisture is below 15%."]
      risks := [
        "Attractive to birds which can significantly reduce yield.",
        "Susceptible to downy mildew and sclerotinia head rot.",
        "Requires pollinator presence for optimal seed set.",
        "Market susceptible to changes in vegetable oil demand."] }),
   ("Beans",
    { soil_types := ["Loam", "Sandy Loam", "Clay Loam"]
      temperature_range := (18, 30)
      rainfall_range := (400, 1200)
      growing_season := ["Spring", "Summer"]
      days_to_harvest := "60-90 days"
      investment_level := "Medium-Low"
      water_requirements := "Medium"
      fertilizer_needs := "Low (P, K)"
      market_demand := get_market_forecast env ("Beans")
      typical_yield := "1.5-3 tons/ha (dry beans)"
      price_trend := get_price_trend env ("Beans")
      cultivation_tips := [
        "Inoculate seeds with Rhizobium bacteria for nitrogen fixation.",
        "Plant when soil has warmed to at least 16°C.",
        "Direct sow at 2-3 cm depth, 5-8 cm apart in rows 50-75 cm apart.",
        "Avoid overhead irrigation during flowering.",
        "Harvest when pods are dry but before they shatter."]
      risks := [
        "Susceptible to bean rust, bacterial blight, and anthracnose.",
        "Sensitive to waterlogging.",
        "Vulnerable to various bean beetles and aphids.",
        "Labor intensive for small-scale harvesting."] }),
   ("Cassava",
    { soil_types := ["Sandy Loam", "Loam", "Clay Loam"]
      temperature_range := (20, 35)
      rainfall_range := (500, 2000)
      growing_season := ["Spring", "Year-round in tropics"]
      days_to_harvest := "9-18 months"
      investment_level := "Low"
      water_requirements := "Medium-Low"
      fertilizer_needs := "Low (K)"
      market_demand := get_market_forecast env ("Cassava")
      typical_yield := "10-30 tons/ha (fresh roots)"
      price_trend := get_price_trend env ("Cassava")
      cultivation_tips := [
        "Plant stem cuttings horizontally or at an angle in raised beds or ridges.",
        "Optimal cutting length is 20-30 cm with 5-8 nodes.",
        "Space plants 80-100 cm apart in rows 90-120 cm apart.",
        "Weed management is critical in the first 3 months.",
        "Harvest when roots reach desired size, typically after 9-12 months."]
      risks := [
        "Susceptible to cassava mosaic disease and bacterial blight.",
        "Roots deteriorate rapidly after harvest (1-3 days).",
        "Processing required to remove cyanogenic compounds in some varieties.",
        "Limited export market potential due to perishability."] })]

/-- The `budget_map` lookup (lines 300-305) with default `["Medium"]`. -/
def budgetAllowed (budget_level : String) : List String :=
  if budget_level = "Low" then ["Low", "Medium-Low"]
  else if budget_level = "Medium" then ["Medium-Low", "Medium", "Medium-High"]
  else if budget_level = "High" then ["Medium", "Medium-High", "High"]
  else ["Medium"]

/-- Lines 332-345: the weighted suitability combination.  Matching factors
score 1, non-matching factors earn fixed partial credit (0.3 / 0.5 / 0.5 /
0.3 / 0.2); the weights are 0.25, 0.2, 0.2, 0.2, 0.15. -/
def suitabilityScore (soil_match temp_match rain_match season_match budget_match : Bool) : ℚ :=
  (if soil_match then 1 else 3/10) * (1/4) +
  (if temp_match then 1 else 1/2) * (1/5) +
  (if rain_match then 1 else 1/2) * (1/5) +
  (if season_match then 1 else 3/10) * (1/5) +
  (if budget_match then 1 else 1/5) * (3/20)

/-- One recommendation dictionary (lines 352-369).  The `rationale` entry — a
formatted English sentence produced by `generate_recommendation_rationale`
from the same match flags, suitability and land size — is presentation-only
string glue (it feeds no computation) and is left out of the embedding. -/
structure Recommendation where
  crop : String
  suitability : ℚ
  growing_season : String
  time_to_harvest : String
  water_requirements : String
  fertilizer_needs : String
  market_demand : String
  estimated_yield : String
  price_trend : String
  investment_level : String
  cultivation_tips : List String
  risks : List String
deriving Repr, DecidableEq, Inhabited

/-- Loop body of lines 310-371 for one crop: skip previously grown crops,
compute the five match flags and the weighted suitability, and keep the crop
when suitability is at least 0.5. -/
def recommendFor (soil_type : String) (avg_temp annual_rainfall : ℚ)
    (current_season : String) (allowed : List String)
    (previous_crops : Option (List String)) (entry : String × CropInfo) :
    Option Recommendation :=
  let skip : Bool :=
    match previous_crops with
    | none => false
    | some l => decide (l ≠ [] ∧ entry.1 ∈ l)
  if skip then none
  else
    let info := entry.2
    let soil_match := decide (soil_type ∈ info.soil_types)
    let temp_match :=
      decide (info.temperature_range.1 ≤ avg_temp ∧ avg_temp ≤ info.temperature_range.2)
    let rain_match :=
      decide (info.rainfall_range.1 ≤ annual_rainfall ∧ annual_rainfall ≤ info.rainfall_range.2)
    let season_match := decide (current_season ∈ info.growing_season)
    let budget_match := decide (info.investment_level ∈ allowed)
    let suitability := suitabilityScore soil_match temp_match rain_match season_match budget_match
    if 1/2 ≤ suitability then
      some { crop := entry.1
             suitability := suitability * 100
             growing_season := String.intercalate (", ") info.growing_season
             time_to_harvest := info.days_to_harvest
             water_requirements := info.water_requirements
             fertilizer_needs := info.fertilizer_needs
             market_demand := info.market_demand
             estimated_yield := info.typical_yield
             price_trend := info.price_trend
             investment_level := info.investment_level
             cultivation_tips := info.cultivation_tips
             risks := info.risks }
    else none

/-- Stable insertion for the descending sort: a new element is placed before
the first strictly smaller suitability, after equal ones that came earlier. -/
def insertDesc (r : Recommendation) : List Recommendation → List Recommendation
  | [] => [r]
  | x :: xs => if x.suitability ≤ r.suitability then r :: x :: xs else x :: insertDesc r xs

/-- Stable sort by descending suitability, the model of line 374
(`recommendations.sort(key=..., reverse=True)`, a stable sort). -/
def sortDesc : List Recommendation → List Recommendation
  | [] => []
  | x :: xs => insertDesc x (sortDesc xs)

/-- `get_crop_recommendations(location, soil_type, climate_data, land_size,
budget_level, previous_crops)` (lines 5-376).  `location` and `land_size` are
accepted but never used by the scoring logic (`land_size` only feeds the
omitted rationale text). -/
def get_crop_recommendations (location soil_type : String) (climate_data : ClimateData)
    (land_size : ℚ) (budget_level : String) (previous_crops : Option (List String))
    (env : RandEnv) : List Recommendation :=
  let current_season := currentSeason env.month
  let avg_temp := climate_data.temperature.getD 25
  let annual_rainfall := climate_data.annual_rainfall.getD 1000
  let allowed := budgetAllowed budget_level
  sortDesc ((crops_database env).filterMap
    (recommendFor soil_type avg_temp annual_rainfall current_season allowed previous_crops))

/-! ## `calculate_resource_efficiency` (resource_management.py lines 150-308)

Numeric values in this function are Python floats that can be the
`float('inf')` sentinel (line 213), so they are modelled by `PVal`: either an
exact rational or the infinity sentinel.  The arithmetic on `PVal` mirrors
IEEE float arithmetic on the values the function actually produces (no NaN
ever arises: infinity is only ever added to finite numbers, averaged, or
compared). -/

/-- A Python float value of the efficiency analyzer: finite, or the
`float('inf')` sentinel. -/
inductive PVal where
  | fin : ℚ → PVal
  | inf : PVal
deriving Repr, DecidableEq

/-- Float addition on sentinel values: `inf + x = x + inf = inf`. -/
def PVal.add : PVal → PVal → PVal
  | fin a, fin b => fin (a + b)
  | _, _ => inf

/-- Sum of a list of float values (`np.mean`'s numerator). -/
def PVal.sumL (l : List PVal) : PVal := l.foldr PVal.add (fin 0)

/-- Division by a list length, the second half of `np.mean`. -/
def PVal.divNat : PVal → Nat → PVal
  | fin q, n => fin (q / (n : ℚ))
  | inf, _ => inf

/-- `np.mean(values)` on float values, `inf` absorbing. -/
def PVal.meanL (l : List PVal) : PVal := (PVal.sumL l).divNat l.length

/-- Binary float minimum (`inf` is the greatest element). -/
def PVal.min2 : PVal → PVal → PVal
  | fin a, fin b => fin (min a b)
  | fin a, inf => fin a
  | inf, b => b

/-- Binary float maximum. -/
def PVal.max2 : PVal → PVal → PVal
  | fin a, fin b => fin (max a b)
  | _, _ => inf

/-- `np.min(values)`; only applied to non-empty lists (guarded by
`if values:` on line 233), the `[]` case is unreachable. -/
def PVal.minL : List PVal → PVal
  | [] => fin 0
  | x :: xs => xs.foldl PVal.min2 x

/-- `np.max(values)`; only applied to non-empty lists. -/
def PVal.maxL : List PVal → PVal
  | [] => fin 0
  | x :: xs => xs.foldl PVal.max2 x

/-- Python `value > 0` on a float value. -/
def PVal.isPos : PVal → Bool
  | fin q => decide (0 < q)
  | inf => true

/-- Float division as exercised by `_calculate_efficiency_score`: both
divisions are guarded so the divisor is a positive finite number there; the
remaining cases follow IEEE conventions (`inf/inf`, which would be NaN, is
never reached and is mapped to `inf`). -/
def PVal.divP : PVal → PVal → PVal
  | fin a, fin b => fin (a / b)
  | inf, fin _ => inf
  | fin _, inf => fin 0
  | inf, inf => inf

/-- `50 * ratio` (line 305); the ratio is capped at 2 before this point. -/
def PVal.mul50 : PVal → PVal
  | fin q => fin (50 * q)
  | inf => inf

/-- Python `int()` truncation toward zero on a rational. -/
def truncQ (q : ℚ) : ℤ := if 0 ≤ q then ⌊q⌋ else ⌈q⌉

/-- `int(x)` on a float value; `int(inf)` would raise in Python but the
argument is always capped at 2 first, so the `inf` case is unreachable. -/
def PVal.toIntTrunc : PVal → ℤ
  | fin q => truncQ q
  | inf => 0

/-- A value of one of the string-keyed Python dictionaries of the efficiency
analyzer, which mix strings, floats and ints. -/
inductive MVal where
  | str : String → MVal
  | num : PVal → MVal
  | intv : ℤ → MVal
deriving Repr, DecidableEq

/-- One benchmark entry (lines 234-238): the Python dictionary
`{average: ..., min: ..., max: ...}` with the two reserved-looking keys
renamed `minVal`/`maxVal`. -/
structure BenchStats where
  average : PVal
  minVal : PVal
  maxVal : PVal
deriving Repr, DecidableEq

/-- One row of the `resource_usage` DataFrame.  The `date` and `resource_id`
columns exist in the data but are never consulted by
`calculate_resource_efficiency` (the groupby sums quantities per
field and resource type), so they are not carried. -/
structure UsageRow where
  field_id : String
  resource_type : String
  quantity : ℚ
deriving Repr, DecidableEq

/-- One row of the `yields` DataFrame (`harvest_date` is unused). -/
structure YieldRow where
  field_id : String
  yield_amount : ℚ
deriving Repr, DecidableEq

/-- One entry of the `field_data` dictionary. -/
structure FieldInfo where
  area_size : ℚ
  crop : String
deriving Repr, DecidableEq

/-- Does the character list begin with the pattern list? -/
def listLeads : List Char → List Char → Bool
  | _, [] => true
  | [], _ :: _ => false
  | a :: as, b :: bs => decide (a = b) && listLeads as bs

/-- Does the character list contain the pattern list as a contiguous run? -/
def listHasSub (sub : List Char) : List Char → Bool
  | [] => decide (sub = [])
  | a :: t => listLeads (a :: t) sub || listHasSub sub t

/-- Python substring test `sub in s` on strings. -/
def strHas (s sub : String) : Bool := listHasSub sub.toList s.toList

/-- Distinct `(field_id, resource_type)` pairs of the usage data.  Pandas
`groupby` sorts its group keys; the grouped frame is only consumed through
per-field filters, unique-key lookups and order-insensitive aggregates, so
the deduplicated key order used here is interchangeable with the sorted
one. -/
def usageKeys (rows : List UsageRow) : List (String × String) :=
  (rows.map (fun r => (r.field_id, r.resource_type))).dedup

/-- Total quantity for one `(field, resource type)` group (line 170). -/
def usageSum (rows : List UsageRow) (f rt : String) : ℚ :=
  ((rows.filter (fun r => decide (r.field_id = f ∧ r.resource_type = rt))).map
    (fun r => r.quantity)).sum

/-- The grouped usage frame `field_resource_usage` (line 170). -/
def groupUsage (rows : List UsageRow) : List (String × String × ℚ) :=
  (usageKeys rows).map (fun p => (p.1, p.2, usageSum rows p.1 p.2))

/-- Per-field output of the loop body (lines 182-228): the `metrics`
dictionary of the field plus its appended contributions to the five
`overall_metrics` lists. -/
structure FieldOut where
  fid : String
  metrics : List (String × MVal)
  waterPH : List PVal
  waterPY : List PVal
  fertPH : List PVal
  fertPY : List PVal
  yph : PVal
deriving Repr, DecidableEq

/-- Lines 208-217: the three metrics entries contributed by each resource
group of the field.  The keys are interpolated with the *capitalised*
resource-type name, e.g. `Water_per_hectare`. -/
def metricsEntries (area ty : ℚ) (fieldUsage : List (String × String × ℚ)) :
    List (String × MVal) :=
  fieldUsage.flatMap (fun g =>
    [(g.2.1 ++ "_usage", MVal.num (PVal.fin g.2.2)),
     (g.2.1 ++ "_per_hectare", MVal.num (PVal.fin (g.2.2 / area))),
     (g.2.1 ++ "_per_yield",
        MVal.num (if 0 < ty then PVal.fin (g.2.2 / ty) else PVal.inf))])

/-- The successful loop body for one field (lines 196-228), with the field's
usage groups and total yield already extracted. -/
def fieldOutRecord (p : String × FieldInfo) (fieldUsage : List (String × String × ℚ))
    (ty : ℚ) : FieldOut :=
  let area := p.2.area_size
  { fid := p.1
    metrics :=
      [("field_id", MVal.str p.1), ("crop", MVal.str p.2.crop),
       ("area", MVal.num (PVal.fin area)), ("total_yield", MVal.num (PVal.fin ty)),
       ("yield_per_hectare", MVal.num (PVal.fin (ty / area)))] ++
      metricsEntries area ty fieldUsage
    waterPH := fieldUsage.filterMap (fun g =>
      if g.2.1 = "Water" then some (PVal.fin (g.2.2 / area)) else none)
    waterPY := fieldUsage.filterMap (fun g =>
      if g.2.1 = "Water" then
        some (if 0 < ty then PVal.fin (g.2.2 / ty) else PVal.inf)
      else none)
    fertPH := fieldUsage.filterMap (fun g =>
      if g.2.1 = "Water" then none
      else if strHas g.2.1 ("Fertilizer") then some (PVal.fin (g.2.2 / area)) else none)
    fertPY := fieldUsage.filterMap (fun g =>
      if g.2.1 = "Water" then none
      else if strHas g.2.1 ("Fertilizer") then
        some (if 0 < ty then PVal.fin (g.2.2 / ty) else PVal.inf)
      else none)
    yph := PVal.fin (ty / area) }

/-- The loop body for one field (lines 182-228); `none` models `continue`
(no usage, no yield rows, or non-positive area, line 193). -/
def fieldOutOf (grouped : List (String × String × ℚ)) (yields : List YieldRow)
    (p : String × FieldInfo) : Option FieldOut :=
  let fieldUsage := grouped.filter (fun g => decide (g.1 = p.1))
  let fieldYield := yields.filter (fun y => decide (y.field_id = p.1))
  if fieldUsage = [] ∨ fieldYield = [] ∨ p.2.area_size ≤ 0 then none
  else
    some (fieldOutRecord p fieldUsage ((fieldYield.map (fun y => y.yield_amount)).sum))

/-- `_calculate_efficiency_score(value, benchmark, lower_is_better)`
(lines 275-308). -/
def calculate_efficiency_score (value benchmark : PVal) (lower_is_better : Bool) : ℤ :=
  if benchmark = PVal.fin 0 then 50
  else
    let ratio :=
      if lower_is_better then
        if value.isPos then benchmark.divP value else PVal.fin 2
      else
        if benchmark.isPos then value.divP benchmark else PVal.fin 2
    let ratio := PVal.min2 ratio (PVal.fin 2)
    let score := (PVal.mul50 ratio).toIntTrunc
    max 0 (min 100 score)

/-- Numeric payload of a metrics value; the comparison step only ever reads
numeric entries, so the other constructors are unreachable there. -/
def asPVal : MVal → PVal
  | .num v => v
  | .str _ => .fin 0
  | .intv n => .fin (n : ℚ)

/-- One row of `benchmark_comparison` (lines 242-266).  Note the checks use
the lower-case keys `water_per_hectare` / `fertilizer_per_hectare`, while the
field metrics were stored under capitalised resource names
(`Water_per_hectare`, ...), so those two branches never fire; only
`yield_efficiency` can appear. -/
def comparisonRow (benchmarks : List (String × BenchStats)) (fid : String)
    (metrics : List (String × MVal)) : List (String × MVal) :=
  [("field_id", MVal.str fid)] ++
  (match lookupA metrics ("water_per_hectare"), lookupA benchmarks ("water_per_hectare") with
   | some v, some b => [("water_efficiency", MVal.intv (calculate_efficiency_score (asPVal v) b.average true))]
   | _, _ => []) ++
  (match lookupA metrics ("fertilizer_per_hectare"), lookupA benchmarks ("fertilizer_per_hectare") with
   | some v, some b => [("fertilizer_efficiency", MVal.intv (calculate_efficiency_score (asPVal v) b.average true))]
   | _, _ => []) ++
  (match lookupA metrics ("yield_per_hectare"), lookupA benchmarks ("yield_per_hectare") with
   | some v, some b => [("yield_efficiency", MVal.intv (calculate_efficiency_score (asPVal v) b.average false))]
   | _, _ => [])

/-- Result dictionary of `calculate_resource_efficiency`.  On the early-exit
branch (line 162, empty usage or empty yields) Python returns a dictionary
with only the first three (empty) entries and no `benchmarks` key; that
branch is modelled as the all-empty record. -/
structure EffResult where
  efficiency_metrics : List (String × List PVal)
  field_metrics : List (String × List (String × MVal))
  benchmark_comparison : List (String × List (String × MVal))
  benchmarks : List (String × BenchStats)
deriving Repr, DecidableEq

/-- `calculate_resource_efficiency(resource_usage, yields, field_data)`
(lines 150-273). -/
def calculate_resource_efficiency (resource_usage : List UsageRow)
    (yields : List YieldRow) (field_data : List (String × FieldInfo)) : EffResult :=
  if resource_usage = [] ∨ yields = [] then ⟨[], [], [], []⟩
  else
    let grouped := groupUsage resource_usage
    let processed := field_data.filterMap (fieldOutOf grouped yields)
    let overall : List (String × List PVal) :=
      [("water_per_hectare", processed.flatMap (fun o => o.waterPH)),
       ("fertilizer_per_hectare", processed.flatMap (fun o => o.fertPH)),
       ("yield_per_hectare", processed.map (fun o => o.yph)),
       ("water_per_yield", processed.flatMap (fun o => o.waterPY)),
       ("fertilizer_per_yield", processed.flatMap (fun o => o.fertPY))]
    let benchmarks := overall.filterMap (fun m =>
      if m.2 = [] then none
      else some (m.1, BenchStats.mk (PVal.meanL m.2) (PVal.minL m.2) (PVal.maxL m.2)))
    ⟨overall, processed.map (fun o => (o.fid, o.metrics)),
     processed.map (fun o => (o.fid, comparisonRow benchmarks o.fid o.metrics)),
     benchmarks⟩

/-! ## Rotation planner

`get_rotation_suggestions` is imported and called by
`pages/crop_recommendation.py` (lines 10-12 and 292) but is defined nowhere in
this repository, so the component is modelled from the specification
(spec §4.2 and §3 `RotationSuggestion`). -/

/-- Modelled from the spec: the fixed plant-family taxonomy of §3
(`get_rotation_suggestions` and its crop-profile table are missing from the
source). -/
inductive PlantFamily where
  | Legume | Grain | RootCrop | FruitVegetable | LeafyVegetable | Allium | Other
deriving Repr, DecidableEq

/-- Modelled from the spec: the nutrient-usage categories of §3. -/
inductive NutrientCat where
  | HeavyFeeder | MediumFeeder | LightFeeder | NitrogenFixer
deriving Repr, DecidableEq

/-- Modelled from the spec: the rotation-relevant slice of a crop profile. -/
structure RotProfile where
  name : String
  family : PlantFamily
  ncat : NutrientCat
deriving Repr, DecidableEq

/-- Every member of the fixed family taxonomy. -/
def allFamilies : List PlantFamily :=
  [.Legume, .Grain, .RootCrop, .FruitVegetable, .LeafyVegetable, .Allium, .Other]

/-- Modelled from the spec: profiles of the crops currently grown (step 1 of
§4.2: map each current crop to family and nutrient category via the table). -/
def rotCurrent (currentCrops : List String) (table : List RotProfile) : List RotProfile :=
  table.filter (fun p => decide (p.name ∈ currentCrops))

/-- Plant families represented among the current crops. -/
def rotCurFams (currentCrops : List String) (table : List RotProfile) : List PlantFamily :=
  (rotCurrent currentCrops table).map (fun p => p.family)

/-- Nutrient categories represented among the current crops. -/
def rotCurCats (currentCrops : List String) (table : List RotProfile) : List NutrientCat :=
  (rotCurrent currentCrops table).map (fun p => p.ncat)

/-- Modelled from the spec: natural-successor categories of one current
category (§4.2 step 2: HeavyFeeder ⇒ NitrogenFixer, NitrogenFixer ⇒
HeavyFeeder, otherwise LightFeeder/MediumFeeder not already represented). -/
def succCats (curCats : List NutrientCat) : NutrientCat → List NutrientCat
  | .HeavyFeeder => [.NitrogenFixer]
  | .NitrogenFixer => [.HeavyFeeder]
  | _ => [NutrientCat.LightFeeder, .MediumFeeder].filter (fun k => decide (k ∉ curCats))

/-- The complement nutrient-category set: successors of what is currently
grown. -/
def rotCompCats (currentCrops : List String) (table : List RotProfile) : List NutrientCat :=
  (rotCurCats currentCrops table).flatMap (succCats (rotCurCats currentCrops table))

/-- The complement family set: families not represented among current
crops. -/
def rotCompFams (currentCrops : List String) (table : List RotProfile) : List PlantFamily :=
  allFamilies.filter (fun fa => decide (fa ∉ rotCurFams currentCrops table))

/-- Modelled from the spec: one rotation suggestion (§3), carrying the crop,
its family and nutrient category, and the tier score. -/
structure RotationSuggestion where
  crop : String
  family : PlantFamily
  ncat : NutrientCat
  score : ℕ
deriving Repr, DecidableEq

/-- Modelled from the spec: `get_rotation_suggestions(currentCrops)` (§4.2,
§6).  Crops matching both complements score 100; if none exist, family-only
matches score 80; if still none, category-only matches score 60; current
crops are excluded and the top 5 are returned (the uniform per-tier score
makes the descending sort order the table order). -/
def get_rotation_suggestions (currentCrops : List String) (table : List RotProfile) :
    List RotationSuggestion :=
  let compFams := rotCompFams currentCrops table
  let compCats := rotCompCats currentCrops table
  let cands := table.filter (fun p => decide (p.name ∉ currentCrops))
  let tier1 := cands.filter (fun p => decide (p.family ∈ compFams ∧ p.ncat ∈ compCats))
  let tier2 := cands.filter (fun p => decide (p.family ∈ compFams))
  let tier3 := cands.filter (fun p => decide (p.ncat ∈ compCats))
  let scored :=
    if tier1 ≠ [] then tier1.map (fun p => RotationSuggestion.mk p.name p.family p.ncat 100)
    else if tier2 ≠ [] then tier2.map (fun p => RotationSuggestion.mk p.name p.family p.ncat 80)
    else tier3.map (fun p => RotationSuggestion.mk p.name p.family p.ncat 60)
  scored.take 5

/-! ## Association-list lemmas -/

theorem lookupA_nil {α : Type} (k : String) : lookupA ([] : List (String × α)) k = none := rfl

theorem lookupA_cons {α : Type} (a : String × α) (t : List (String × α)) (k : String) :
    lookupA (a :: t) k = if a.1 = k then some a.2 else lookupA t k := by
  by_cases h : a.1 = k <;> simp [lookupA, List.find?_cons, h]

theorem lookupA_append {α : Type} (l₁ l₂ : List (String × α)) (k : String) :
    lookupA (l₁ ++ l₂) k =
      (match lookupA l₁ k with | some v => some v | none => lookupA l₂ k) := by
  induction l₁ with
  | nil => simp [lookupA_nil]
  | cons a t ih =>
      by_cases h : a.1 = k <;> simp [lookupA_cons, h, ih]

theorem lookupA_none_of_forall {α : Type} {l : List (String × α)} {k : String}
    (h : ∀ p ∈ l, p.1 ≠ k) : lookupA l k = none := by
  induction l with
  | nil => rfl
  | cons a t ih =>
      rw [lookupA_cons, if_neg (h a (List.mem_cons_self a t))]
      exact ih (fun p hp => h p (List.mem_cons_of_mem a hp))

theorem lookupA_eq_some_of_mem_nodup {α : Type} {l : List (String × α)} {k : String} {v : α}
    (hm : (k, v) ∈ l) (hnd : (l.map Prod.fst).Nodup) : lookupA l k = some v := by
  induction l with
  | nil => cases hm
  | cons a t ih =>
      rw [List.map_cons, List.nodup_cons] at hnd
      rcases List.mem_cons.1 hm with h | h
      · subst h
        simp [lookupA_cons]
      · have hk : a.1 ≠ k := by
          intro he
          exact hnd.1 (he ▸ List.mem_map.2 ⟨(k, v), h, rfl⟩)
        rw [lookupA_cons, if_neg hk]
        exact ih h hnd.2

theorem lookupA_map_keyed {α β : Type} (l : List (String × α)) (g : String × α → β) (k : String) :
    lookupA (l.map (fun x => (x.1, g x))) k = (l.find? (fun p => decide (p.1 = k))).map g := by
  induction l with
  | nil => rfl
  | cons a t ih =>
      by_cases h : a.1 = k <;> simp [lookupA_cons, List.find?_cons, h] <;> exact ih

theorem lookupA_keyfun_mem {α β : Type} (l : List (String × α)) (h : String → β) (k : String)
    (hk : k ∈ l.map Prod.fst) :
    lookupA (l.map (fun p => (p.1, h p.1))) k = some (h k) := by
  induction l with
  | nil => cases hk
  | cons a t ih =>
      by_cases ha : a.1 = k
      · simp [lookupA_cons, ha]
      · rw [List.map_cons, lookupA_cons, if_neg ha]
        rcases List.mem_cons.1 hk with h1 | h1
        · exact absurd h1.symm ha
        · exact ih h1

theorem lookupA_keyfun_not_mem {α β : Type} (l : List (String × α)) (h : String → β) (k : String)
    (hk : k ∉ l.map Prod.fst) :
    lookupA (l.map (fun p => (p.1, h p.1))) k = none := by
  refine lookupA_none_of_forall (fun p hp => ?_)
  rcases List.mem_map.1 hp with ⟨x, hx, hpx⟩
  intro he
  exact hk (he ▸ hpx ▸ List.mem_map.2 ⟨x, hx, rfl⟩)

theorem find?_pair_of_lookupA {α : Type} {l : List (String × α)} {k : String} {v : α}
    (h : lookupA l k = some v) :
    l.find? (fun p => decide (p.1 = k)) = some (k, v) := by
  unfold lookupA at h
  rcases hf : l.find? (fun p => decide (p.1 = k)) with _ | p
  · rw [hf] at h; cases h
  · obtain ⟨k1, v1⟩ := p
    rw [hf] at h
    have hk : k1 = k := by simpa using List.find?_some hf
    have hv : v1 = v := by simpa using h
    rw [hf, hk, hv]

theorem find?_filter_key {α : Type} (l : List (String × α)) (P : String → Bool) (k : String)
    (hP : P k = true) :
    (l.filter (fun p => P p.1)).find? (fun p => decide (p.1 = k)) =
      l.find? (fun p => decide (p.1 = k)) := by
  induction l with
  | nil => rfl
  | cons a t ih =>
      by_cases h : a.1 = k
      · rw [List.filter_cons, h]
        simp [hP, List.find?_cons, h]
      · by_cases hp : P a.1 <;> simp [List.filter_cons, hp, List.find?_cons, h, ih]

/-! ## Lemmas about the allocation passes -/

theorem keySum_nil (rt : String) : keySum [] rt = 0 := rfl

theorem keySum_cons (a : String × ℚ) (t : QMap) (rt : String) :
    keySum (a :: t) rt = (if a.1 = rt then a.2 else 0) + keySum t rt := by
  by_cases h : a.1 = rt <;> simp [keySum, List.filter_cons, h]

theorem keySum_map_value (e : QMap) (v : String × ℚ → ℚ) (rt : String) :
    keySum (e.map (fun p => (p.1, v p))) rt =
      ((e.filter (fun p => decide (p.1 = rt))).map v).sum := by
  induction e with
  | nil => rfl
  | cons a t ih =>
      rw [List.map_cons, keySum_cons, ih, List.filter_cons]
      by_cases h : a.1 = rt
      · simp [h]
      · simp [h]

theorem keySum_scaled (available totals : QMap) (e : QMap) (rt : String) :
    keySum (e.map (fun p => (p.1, p.2 * scaleFactor available totals p.1))) rt =
      scaleFactor available totals rt * keySum e rt := by
  rw [keySum_map_value]
  have hcong : (e.filter (fun p => decide (p.1 = rt))).map
        (fun p => p.2 * scaleFactor available totals p.1) =
      (e.filter (fun p => decide (p.1 = rt))).map
        (fun p => p.2 * scaleFactor available totals rt) := by
    refine List.map_congr_left (fun p hp => ?_)
    have : p.1 = rt := by simpa using (List.mem_filter.1 hp).2
    rw [this]
  rw [hcong, keySum, List.sum_map_mul_right]
  ring

theorem allocTotal_scale (available totals : QMap) (alloc : List (String × QMap)) (rt : String) :
    allocTotal (scaleAllocation available totals alloc) rt =
      scaleFactor available totals rt * allocTotal alloc rt := by
  unfold allocTotal scaleAllocation
  rw [List.map_map]
  induction alloc with
  | nil => simp
  | cons fa t ih =>
      simp only [List.map_cons, List.sum_cons, Function.comp] at ih ⊢
      rw [keySum_scaled, ih, mul_add]

theorem shortagePct_lookup_none (available : QMap) (fieldReqs : List (String × QMap))
    (rt : String)
    (h : ¬(reqTotal fieldReqs rt > (lookupA available rt).getD 0 ∧ reqTotal fieldReqs rt > 0)) :
    lookupA (resourceShortagePct available fieldReqs) rt = none := by
  show lookupA (available.filterMap (fun p =>
    if reqTotal fieldReqs p.1 > (lookupA available p.1).getD 0 ∧ reqTotal fieldReqs p.1 > 0
    then some (p.1, 1 - (lookupA available p.1).getD 0 / reqTotal fieldReqs p.1) else none)) rt
    = none
  have aux : ∀ l : List (String × ℚ),
      lookupA (l.filterMap (fun p =>
        if reqTotal fieldReqs p.1 > (lookupA available p.1).getD 0 ∧ reqTotal fieldReqs p.1 > 0
        then some (p.1, 1 - (lookupA available p.1).getD 0 / reqTotal fieldReqs p.1)
        else none)) rt = none := by
    intro l
    induction l with
    | nil => rfl
    | cons a t ih =>
        by_cases hc : reqTotal fieldReqs a.1 > (lookupA available a.1).getD 0 ∧
            reqTotal fieldReqs a.1 > 0
        · have hne : a.1 ≠ rt := fun he => h (he ▸ hc)
          simp only [List.filterMap_cons, if_pos hc]
          rw [lookupA_cons, if_neg hne]
          exact ih
        · simp only [List.filterMap_cons, if_neg hc]
          exact ih
  exact aux available

theorem keySum_preEntries (available : QMap) (spcts prios : List (String × ℚ)) (prio : ℚ)
    (e : QMap) (rt : String) (hrt : rt ∈ availKeys available)
    (hs : lookupA spcts rt = none) :
    keySum ((e.filter (fun p => decide (p.1 ∈ availKeys available))).map
      (fun p => (p.1, allocAmount spcts prios prio p.2 p.1))) rt = keySum e rt := by
  rw [keySum_map_value]
  have h1 : ((e.filter (fun p => decide (p.1 ∈ availKeys available))).filter
      (fun p => decide (p.1 = rt))) = e.filter (fun p => decide (p.1 = rt)) := by
    rw [List.filter_filter]
    refine List.filter_congr (fun p hp => ?_)
    by_cases h : p.1 = rt
    · simp [h, hrt]
    · simp [h]
  rw [h1]
  have h2 : (e.filter (fun p => decide (p.1 = rt))).map
      (fun p => allocAmount spcts prios prio p.2 p.1) =
      (e.filter (fun p => decide (p.1 = rt))).map (fun p => p.2) := by
    refine List.map_congr_left (fun p hp => ?_)
    have hep : p.1 = rt := by simpa using (List.mem_filter.1 hp).2
    simp only [allocAmount, hep, hs]
  rw [h2, keySum]

theorem allocTotal_pre (available : QMap) (fieldReqs : List (String × QMap))
    (spcts prios : List (String × ℚ)) (rt : String)
    (hrt : rt ∈ availKeys available) (hs : lookupA spcts rt = none) :
    allocTotal (preAllocation available fieldReqs spcts prios) rt = reqTotal fieldReqs rt := by
  unfold allocTotal preAllocation reqTotal
  rw [List.map_map]
  refine congrArg List.sum (List.map_congr_left (fun fr hfr => ?_))
  exact keySum_preEntries available spcts prios _ fr.2 rt hrt hs

theorem lookupA_map_snd {α β : Type} (l : List (String × α)) (h : α → β) (k : String) :
    lookupA (l.map (fun x => (x.1, h x.2))) k = (lookupA l k).map h := by
  induction l with
  | nil => rfl
  | cons a t ih =>
      by_cases ha : a.1 = k <;> simp [lookupA_cons, ha] <;> exact ih

theorem lookupA_mapped_reqs (reqs : QMap) (P : String → Bool) (v : String × ℚ → ℚ)
    (rt : String) (q : ℚ) (hq : lookupA reqs rt = some q) (hP : P rt = true) :
    lookupA ((reqs.filter (fun p => P p.1)).map (fun p => (p.1, v p))) rt = some (v (rt, q)) := by
  rw [lookupA_map_keyed, find?_filter_key _ _ _ hP, find?_pair_of_lookupA hq]
  rfl

theorem lookupA_pre (available : QMap) (spcts prios : List (String × ℚ))
    (fieldReqs : List (String × QMap)) (f : String) (reqs : QMap)
    (hf : lookupA fieldReqs f = some reqs) :
    lookupA (preAllocation available fieldReqs spcts prios) f =
      some ((reqs.filter (fun p => decide (p.1 ∈ availKeys available))).map
        (fun p => (p.1, allocAmount spcts prios ((lookupA prios f).getD 1) p.2 p.1))) := by
  unfold preAllocation
  rw [lookupA_map_keyed, find?_pair_of_lookupA hf]
  rfl

/-! ## Claim theorems: resource allocation -/

/-- C1 counterexample: the conservation invariant as stated — for every call
and every resource type of the pool, the allocated sum never exceeds the
available quantity — is false: with a negative pool quantity (`Water: -1`)
and a zero request the defensive scaler does not fire (it requires
`total_allocated > 0`), and the allocated total 0 exceeds the available -1. -/
theorem alloc_conservation_counterexample :
    ¬ (∀ (available : QMap) (fieldReqs : List (String × QMap))
          (priorities : Option (List (String × ℚ))) (out : AllocationResult),
        calculate_optimal_resource_allocation available fieldReqs priorities = some out →
        ∀ p ∈ available, allocTotal out.allocation p.1 ≤ p.2) := by
  intro h
  have h2 := h [("Water", -1)] [("A", [("Water", 0)])] none
      ⟨[("A", [("Water", 0)])], [("Water", 0)], [("Water", 0)], [("Water", 0)]⟩
      (by decide) ("Water", -1) (by decide)
  exact absurd h2 (by decide)

/-- C1 (amended): for every call on a pool of nonnegative quantities, and for
every resource type in the pool, the allocated quantities of that resource
type in the returned allocation sum to at most the available quantity — the
defensive proportional scaling step makes the sum exactly equal to the
available quantity whenever it fires. -/
theorem alloc_conservation_nonneg_pool (available : QMap) (fieldReqs : List (String × QMap))
    (priorities : Option (List (String × ℚ))) (out : AllocationResult)
    (hnd : (available.map Prod.fst).Nodup)
    (hpos : ∀ p ∈ available, 0 ≤ p.2)
    (hout : calculate_optimal_resource_allocation available fieldReqs priorities = some out) :
    ∀ p ∈ available, allocTotal out.allocation p.1 ≤ p.2 := by
  intro p hp
  unfold calculate_optimal_resource_allocation at hout
  split_ifs at hout with h1
  · cases hout
    simpa [allocTotal] using hpos p hp
  · dsimp only at hout
    split_ifs at hout with h2
    cases hout
    obtain ⟨rt, av⟩ := p
    have hmem : rt ∈ availKeys available := List.mem_map.2 ⟨(rt, av), hp, rfl⟩
    have hav : lookupA available rt = some av := lookupA_eq_some_of_mem_nodup hp hnd
    show allocTotal (scaleAllocation available _ _) rt ≤ av
    rw [allocTotal_scale]
    have htot : lookupA (allocatedTotals available
        (preAllocation available fieldReqs (resourceShortagePct available fieldReqs)
          (effPriorities fieldReqs priorities))) rt =
        some (allocTotal (preAllocation available fieldReqs
          (resourceShortagePct available fieldReqs) (effPriorities fieldReqs priorities)) rt) :=
      lookupA_keyfun_mem available _ rt hmem
    simp only [scaleFactor, htot, hav, Option.getD_some]
    by_cases hc : allocTotal (preAllocation available fieldReqs
        (resourceShortagePct available fieldReqs) (effPriorities fieldReqs priorities)) rt > av ∧
        allocTotal (preAllocation available fieldReqs (resourceShortagePct available fieldReqs)
          (effPriorities fieldReqs priorities)) rt > 0
    · rw [if_pos hc, div_mul_cancel₀ av (ne_of_gt hc.2)]
    · rw [if_neg hc, one_mul]
      rcases not_and_or.1 hc with h | h
      · exact not_lt.1 h
      · exact le_trans (not_lt.1 h) (hpos (rt, av) hp)

/-- C1 witness: the amended conservation theorem applied to a concrete
nonnegative pool. -/
theorem alloc_conservation_nonneg_pool_witness :
    calculate_optimal_resource_allocation [("Water", 100)] [("A", [("Water", 30)])] none =
      some ⟨[("A", [("Water", 30)])], [("Water", 0)], [("Water", 30)], [("Water", 30)]⟩ ∧
    allocTotal [("A", [("Water", 30)])] ("Water") ≤ 100 := by
  refine ⟨by decide, ?_⟩
  have h := alloc_conservation_nonneg_pool [("Water", 100)] [("A", [("Water", 30)])] none
      ⟨[("A", [("Water", 30)])], [("Water", 0)], [("Water", 30)], [("Water", 30)]⟩
      (by decide) (by decide) (by decide) ("Water", 100) (by decide)
  simpa using h

/-- C5: Scenario B — pool `{Water: 100}`, requests `{FieldA: {Water: 80},
FieldB: {Water: 80}}`, priorities `{A: 2, B: 1}`: FieldA receives strictly
more Water than FieldB (1600/29 ≈ 55.2 vs 1300/29 ≈ 44.8) and the two
allocations sum to exactly 100. -/
theorem alloc_scenario_b :
    ((calculate_optimal_resource_allocation [("Water", 100)]
        [("FieldA", [("Water", 80)]), ("FieldB", [("Water", 80)])]
        (some [("FieldA", 2), ("FieldB", 1)])).bind
      (fun o => (lookupA o.allocation ("FieldA")).bind (fun e => lookupA e ("Water")))) =
        some (1600/29) ∧
    ((calculate_optimal_resource_allocation [("Water", 100)]
        [("FieldA", [("Water", 80)]), ("FieldB", [("Water", 80)])]
        (some [("FieldA", 2), ("FieldB", 1)])).bind
      (fun o => (lookupA o.allocation ("FieldB")).bind (fun e => lookupA e ("Water")))) =
        some (1300/29) ∧
    ((1300 : ℚ)/29) < 1600/29 ∧ ((1600 : ℚ)/29) + 1300/29 = 100 := by
  refine ⟨by decide, by decide, by decide, by decide⟩

/-- C2: when the total ideal requirement of a resource type does not exceed
its available quantity, every field that requests that resource type is
allocated exactly its ideal quantity in the returned allocation (neither the
shortage reduction nor the defensive scaling touches it). -/
theorem alloc_full_satisfaction_when_abundant (available : QMap)
    (fieldReqs : List (String × QMap)) (priorities : Option (List (String × ℚ)))
    (out : AllocationResult) (rt : String) (av : ℚ) (f : String) (reqs : QMap) (q : ℚ)
    (hnd : (available.map Prod.fst).Nodup)
    (hav : (rt, av) ∈ available)
    (habundant : reqTotal fieldReqs rt ≤ av)
    (hout : calculate_optimal_resource_allocation available fieldReqs priorities = some out)
    (hf : lookupA fieldReqs f = some reqs)
    (hq : lookupA reqs rt = some q) :
    (lookupA out.allocation f).bind (fun e => lookupA e rt) = some q := by
  have hmem : rt ∈ availKeys available := List.mem_map.2 ⟨(rt, av), hav, rfl⟩
  have havl : lookupA available rt = some av := lookupA_eq_some_of_mem_nodup hav hnd
  have hnoshort' : ¬(reqTotal fieldReqs rt > av ∧ reqTotal fieldReqs rt > 0) :=
    fun hcon => absurd hcon.1 (not_lt.2 habundant)
  have hnoshort : ¬(reqTotal fieldReqs rt > (lookupA available rt).getD 0 ∧
      reqTotal fieldReqs rt > 0) := by
    rw [havl]
    exact hnoshort'
  have hs : lookupA (resourceShortagePct available fieldReqs) rt = none :=
    shortagePct_lookup_none available fieldReqs rt hnoshort
  unfold calculate_optimal_resource_allocation at hout
  split_ifs at hout with h1
  · rcases h1 with h1 | h1
    · rw [h1] at hav; cases hav
    · rw [h1] at hf; cases hf
  · dsimp only at hout
    split_ifs at hout with h2
    cases hout
    show (lookupA (scaleAllocation available _ _) f).bind (fun e => lookupA e rt) = some q
    rw [scaleAllocation, lookupA_map_snd,
        lookupA_pre available _ _ fieldReqs f reqs hf]
    simp only [Option.map_some', Option.some_bind]
    rw [List.map_map]
    have hcomp :
        ((fun p => (p.1, p.2 * scaleFactor available (allocatedTotals available
            (preAllocation available fieldReqs (resourceShortagePct available fieldReqs)
              (effPriorities fieldReqs priorities))) p.1)) ∘
          (fun p => (p.1, allocAmount (resourceShortagePct available fieldReqs)
            (effPriorities fieldReqs priorities)
            ((lookupA (effPriorities fieldReqs priorities) f).getD 1) p.2 p.1))) =
        (fun p : String × ℚ => (p.1,
          allocAmount (resourceShortagePct available fieldReqs)
            (effPriorities fieldReqs priorities)
            ((lookupA (effPriorities fieldReqs priorities) f).getD 1) p.2 p.1 *
          scaleFactor available (allocatedTotals available
            (preAllocation available fieldReqs (resourceShortagePct available fieldReqs)
              (effPriorities fieldReqs priorities))) p.1)) := rfl
    rw [hcomp]
    have hlook := lookupA_mapped_reqs reqs (fun k => decide (k ∈ availKeys available))
        (fun p => allocAmount (resourceShortagePct available fieldReqs)
            (effPriorities fieldReqs priorities)
            ((lookupA (effPriorities fieldReqs priorities) f).getD 1) p.2 p.1 *
          scaleFactor available (allocatedTotals available
            (preAllocation available fieldReqs (resourceShortagePct available fieldReqs)
              (effPriorities fieldReqs priorities))) p.1)
        rt q hq (by simpa using hmem)
    rw [hlook]
    dsimp only
    have hAA : allocAmount (resourceShortagePct available fieldReqs)
        (effPriorities fieldReqs priorities)
        ((lookupA (effPriorities fieldReqs priorities) f).getD 1) q rt = q := by
      simp only [allocAmount, hs]
    rw [hAA]
    have htot : lookupA (allocatedTotals available
        (preAllocation available fieldReqs (resourceShortagePct available fieldReqs)
          (effPriorities fieldReqs priorities))) rt =
        some (allocTotal (preAllocation available fieldReqs
          (resourceShortagePct available fieldReqs) (effPriorities fieldReqs priorities)) rt) :=
      lookupA_keyfun_mem available _ rt hmem
    have hpre : allocTotal (preAllocation available fieldReqs
        (resourceShortagePct available fieldReqs) (effPriorities fieldReqs priorities)) rt =
        reqTotal fieldReqs rt :=
      allocTotal_pre available fieldReqs _ _ rt hmem hs
    simp only [scaleFactor, htot, havl, Option.getD_some, hpre]
    rw [if_neg hnoshort', mul_one]

/-- C2 witness: an abundant pool (`Water: 100` against a total requirement of
30) hands the requesting field exactly its ideal 30. -/
theorem alloc_full_satisfaction_when_abundant_witness :
    (lookupA (AllocationResult.allocation
        ⟨[("A", [("Water", 30)])], [("Water", 0)], [("Water", 30)], [("Water", 30)]⟩) ("A")).bind
      (fun e => lookupA e ("Water")) = some 30 := by
  exact alloc_full_satisfaction_when_abundant [("Water", 100)] [("A", [("Water", 30)])] none
    ⟨[("A", [("Water", 30)])], [("Water", 0)], [("Water", 30)], [("Water", 30)]⟩
    ("Water") 100 ("A") [("Water", 30)] 30
    (by decide) (by decide) (by decide) (by decide) (by decide) (by decide)

/-- C4 counterexample: the 10%-floor does not survive the defensive scaling.
Pool `{Water: 100}`; field A requests 10000 at priority 10, field B requests
100 at priority 1.  B's pre-scaling allocation is 1100/101 (within the 0.9
reduction cap), but the conservation step multiplies everything by 101/10111,
leaving B with 1100/10111 ≈ 0.109 — about 0.1% of its ideal 100, far below
the claimed 10% floor. -/
theorem alloc_ten_percent_floor_counterexample :
    ¬ (∀ (available : QMap) (fieldReqs : List (String × QMap))
          (priorities : Option (List (String × ℚ))) (out : AllocationResult)
          (f : String) (reqs : QMap) (rt : String) (q a : ℚ),
        calculate_optimal_resource_allocation available fieldReqs priorities = some out →
        lookupA fieldReqs f = some reqs → lookupA reqs rt = some q →
        (lookupA out.allocation f).bind (fun e => lookupA e rt) = some a →
        q * (1/10) ≤ a) := by
  intro h
  have h2 := h [("Water", 100)] [("A", [("Water", 10000)]), ("B", [("Water", 100)])]
      (some [("A", 10), ("B", 1)])
      ⟨[("A", [("Water", 1010000/10111)]), ("B", [("Water", 1100/10111)])],
       [("Water", 10000)], [("Water", 10100)], [("Water", 1011100/101)]⟩
      ("B") [("Water", 100)] ("Water") 100 (1100/10111)
      (by decide) (by decide) (by decide) (by decide)
  exact absurd h2 (by decide)

/-- C4 (amended): the 10% floor holds for the allocation computed by the
second pass, before the defensive conservation scaling: for every field and
every requested pool resource with a nonnegative ideal quantity, the
pre-scaling allocated amount is at least 10% of the ideal, because the
reduction factor is capped at 0.9.  (The final allocation can drop below the
floor when the conservation step rescales, as the counterexample shows.) -/
theorem prealloc_ten_percent_floor (available : QMap) (fieldReqs : List (String × QMap))
    (priorities : Option (List (String × ℚ))) (f : String) (reqs : QMap) (rt : String) (q : ℚ)
    (hf : lookupA fieldReqs f = some reqs)
    (hq : lookupA reqs rt = some q)
    (hq0 : 0 ≤ q)
    (hmem : rt ∈ availKeys available) :
    ∃ a, (lookupA (preAllocation available fieldReqs (resourceShortagePct available fieldReqs)
        (effPriorities fieldReqs priorities)) f).bind (fun e => lookupA e rt) = some a ∧
      q * (1/10) ≤ a := by
  rw [lookupA_pre available _ _ fieldReqs f reqs hf]
  simp only [Option.some_bind]
  have hlook := lookupA_mapped_reqs reqs (fun k => decide (k ∈ availKeys available))
      (fun p => allocAmount (resourceShortagePct available fieldReqs)
          (effPriorities fieldReqs priorities)
          ((lookupA (effPriorities fieldReqs priorities) f).getD 1) p.2 p.1)
      rt q hq (by simpa using hmem)
  rw [hlook]
  refine ⟨_, rfl, ?_⟩
  show q * (1/10) ≤ allocAmount (resourceShortagePct available fieldReqs)
      (effPriorities fieldReqs priorities)
      ((lookupA (effPriorities fieldReqs priorities) f).getD 1) q rt
  unfold allocAmount
  rcases hsp : lookupA (resourceShortagePct available fieldReqs) rt with _ | spct
  · calc q * (1/10) ≤ q * 1 := by
          apply mul_le_mul_of_nonneg_left _ hq0
          norm_num
      _ = q := mul_one q
  · have hcap : min (spct * (1 - ((lookupA (effPriorities fieldReqs priorities) f).getD 1) /
        (((effPriorities fieldReqs priorities).map (fun p => p.2)).max?).getD 1)) (9/10) ≤ 9/10 :=
      min_le_right _ _
    have h110 : (1/10 : ℚ) ≤ 1 - min (spct * (1 -
        ((lookupA (effPriorities fieldReqs priorities) f).getD 1) /
        (((effPriorities fieldReqs priorities).map (fun p => p.2)).max?).getD 1)) (9/10) := by
      linarith
    calc q * (1/10) ≤ q * (1 - min (spct * (1 -
          ((lookupA (effPriorities fieldReqs priorities) f).getD 1) /
          (((effPriorities fieldReqs priorities).map (fun p => p.2)).max?).getD 1)) (9/10)) :=
        mul_le_mul_of_nonneg_left h110 hq0
      _ = _ := rfl

/-- C4 witness: the pre-scaling floor at a concrete shortage input (field B's
pre-scaling allocation 1100/101 is above 10 = 10% of its ideal 100). -/
theorem prealloc_ten_percent_floor_witness :
    ∃ a, (lookupA (preAllocation [("Water", 100)]
        [("A", [("Water", 10000)]), ("B", [("Water", 100)])]
        (resourceShortagePct [("Water", 100)]
          [("A", [("Water", 10000)]), ("B", [("Water", 100)])])
        (effPriorities [("A", [("Water", 10000)]), ("B", [("Water", 100)])]
          (some [("A", 10), ("B", 1)]))) ("B")).bind (fun e => lookupA e ("Water")) = some a ∧
      (100 : ℚ) * (1/10) ≤ a := by
  exact prealloc_ten_percent_floor [("Water", 100)]
    [("A", [("Water", 10000)]), ("B", [("Water", 100)])] (some [("A", 10), ("B", 1)])
    ("B") [("Water", 100)] ("Water") 100 (by decide) (by decide) (by decide) (by decide)

/-- C7 counterexample: the engine can raise.  With a shortage present,
`calculate_optimal_resource_allocation` raises `ValueError` on an empty
priority dictionary (`max()` of an empty sequence) and `ZeroDivisionError`
when every priority weight is 0; both runs are modelled by `none`. -/
theorem alloc_raises_counterexample :
    calculate_optimal_resource_allocation [("Water", 10)] [("A", [("Water", 20)])]
      (some []) = none ∧
    calculate_optimal_resource_allocation [("Water", 10)] [("A", [("Water", 20)])]
      (some [("A", 0)]) = none := by
  exact ⟨by decide, by decide⟩

/-- C7 (amended): `calculate_optimal_resource_allocation` returns a result
(raises no exception) whenever the effective priority dictionary — the
caller's, or the all-ones default when priorities are omitted — is nonempty
with a nonzero maximum; the degenerate priority maps of the counterexample
are the only crashing inputs.  (The scoring and efficiency functions are
total.) -/
theorem alloc_total_under_sane_priorities (available : QMap)
    (fieldReqs : List (String × QMap)) (priorities : Option (List (String × ℚ))) (m : ℚ)
    (hm : ((effPriorities fieldReqs priorities).map (fun p => p.2)).max? = some m)
    (hm0 : m ≠ 0) :
    (calculate_optimal_resource_allocation available fieldReqs priorities).isSome := by
  unfold calculate_optimal_resource_allocation
  split_ifs with h1
  · rfl
  · dsimp only
    have hdeg : prioDegenerate (effPriorities fieldReqs priorities) = false := by
      unfold prioDegenerate
      rw [hm]
      simpa using hm0
    rw [hdeg, Bool.and_false]
    simp

/-- C7 witness: a sane priority map on a shortage input yields a result. -/
theorem alloc_total_under_sane_priorities_witness :
    (calculate_optimal_resource_allocation [("Water", 10)] [("A", [("Water", 20)])]
      (some [("A", 2)])).isSome := by
  exact alloc_total_under_sane_priorities [("Water", 10)] [("A", [("Water", 20)])]
    (some [("A", 2)]) 2 (by decide) (by decide)

/-- C10: a resource type requested by some field but absent from the
available pool is silently dropped: it appears in no field's entry of the
returned allocation, has no entry in `total_requirements`, and is never
reported in `shortages`. -/
theorem alloc_unavailable_resource_ignored (available : QMap)
    (fieldReqs : List (String × QMap)) (priorities : Option (List (String × ℚ)))
    (out : AllocationResult) (rt : String)
    (hout : calculate_optimal_resource_allocation available fieldReqs priorities = some out)
    (hrt : rt ∉ availKeys available) :
    (∀ fa ∈ out.allocation, lookupA fa.2 rt = none) ∧
    lookupA out.total_requirements rt = none ∧
    lookupA out.shortages rt = none := by
  unfold calculate_optimal_resource_allocation at hout
  split_ifs at hout with h1
  · cases hout
    exact ⟨fun fa hfa => absurd hfa (List.not_mem_nil fa), rfl, rfl⟩
  · dsimp only at hout
    split_ifs at hout with h2
    cases hout
    refine ⟨?_, ?_, ?_⟩
    · intro fa hfa
      show lookupA fa.2 rt = none
      unfold scaleAllocation preAllocation at hfa
      rw [List.map_map] at hfa
      rcases List.mem_map.1 hfa with ⟨fr, hfr, hfa2⟩
      apply lookupA_none_of_forall
      intro p hp
      rw [← hfa2] at hp
      dsimp only [Function.comp] at hp
      rw [List.map_map] at hp
      rcases List.mem_map.1 hp with ⟨p1, hp1, hpp⟩
      have hkey : p1.1 ∈ availKeys available := by
        simpa using (List.mem_filter.1 hp1).2
      rw [← hpp]
      dsimp only [Function.comp]
      intro he
      exact hrt (he ▸ hkey)
    · show lookupA (totalRequirementsOf available fieldReqs) rt = none
      exact lookupA_keyfun_not_mem available _ rt hrt
    · show lookupA (shortagesOf available fieldReqs) rt = none
      exact lookupA_keyfun_not_mem available
        (fun k => if reqTotal fieldReqs k > (lookupA available k).getD 0 ∧
            reqTotal fieldReqs k > 0
          then reqTotal fieldReqs k - (lookupA available k).getD 0 else 0) rt hrt

/-- C10 witness: a request for `Seed` against a pool that only offers `Water`
vanishes from the result. -/
theorem alloc_unavailable_resource_ignored_witness :
    (∀ fa ∈ (AllocationResult.allocation
        ⟨[("A", [("Water", 2)])], [("Water", 0)], [("Water", 2)], [("Water", 2)]⟩),
      lookupA fa.2 ("Seed") = none) ∧
    lookupA (AllocationResult.total_requirements
        ⟨[("A", [("Water", 2)])], [("Water", 0)], [("Water", 2)], [("Water", 2)]⟩) ("Seed") = none ∧
    lookupA (AllocationResult.shortages
        ⟨[("A", [("Water", 2)])], [("Water", 0)], [("Water", 2)], [("Water", 2)]⟩) ("Seed") = none := by
  exact alloc_unavailable_resource_ignored [("Water", 5)] [("A", [("Seed", 3), ("Water", 2)])]
    none ⟨[("A", [("Water", 2)])], [("Water", 0)], [("Water", 2)], [("Water", 2)]⟩ ("Seed")
    (by decide) (by decide)

/-! ## Claim theorems: crop scoring -/

theorem mem_insertDesc {x r : Recommendation} {l : List Recommendation} :
    x ∈ insertDesc r l ↔ x = r ∨ x ∈ l := by
  induction l with
  | nil => simp [insertDesc]
  | cons a t ih =>
      by_cases h : a.suitability ≤ r.suitability
      · simp [insertDesc, h]
      · simp [insertDesc, h, ih]
        tauto

theorem mem_sortDesc {x : Recommendation} {l : List Recommendation} :
    x ∈ sortDesc l ↔ x ∈ l := by
  induction l with
  | nil => simp [sortDesc]
  | cons a t ih => simp [sortDesc, mem_insertDesc, ih]

theorem suitability_pct_bounds :
    ∀ b1 b2 b3 b4 b5 : Bool,
      0 ≤ suitabilityScore b1 b2 b3 b4 b5 * 100 ∧
      suitabilityScore b1 b2 b3 b4 b5 * 100 ≤ 100 := by
  decide

theorem recommendFor_bounds (soil_type : String) (avg_temp annual_rainfall : ℚ)
    (current_season : String) (allowed : List String) (previous_crops : Option (List String))
    (entry : String × CropInfo) (r : Recommendation)
    (h : recommendFor soil_type avg_temp annual_rainfall current_season allowed
      previous_crops entry = some r) :
    0 ≤ r.suitability ∧ r.suitability ≤ 100 := by
  unfold recommendFor at h
  dsimp only at h
  split_ifs at h with h1 h2
  cases h
  exact suitability_pct_bounds _ _ _ _ _

/-- C6: every recommendation reported by `get_crop_recommendations` — over
every soil type, climate, budget level, previous-crop list and ambient
environment — carries a suitability percentage between 0 and 100 inclusive
(in fact the weighted formula keeps it between 36.5 and 100). -/
theorem suitability_score_bounds (location soil_type : String) (climate_data : ClimateData)
    (land_size : ℚ) (budget_level : String) (previous_crops : Option (List String))
    (env : RandEnv) (r : Recommendation)
    (hr : r ∈ get_crop_recommendations location soil_type climate_data land_size
      budget_level previous_crops env) :
    0 ≤ r.suitability ∧ r.suitability ≤ 100 := by
  unfold get_crop_recommendations at hr
  dsimp only at hr
  rw [mem_sortDesc] at hr
  rcases List.mem_filterMap.1 hr with ⟨entry, hmem, hsome⟩
  exact recommendFor_bounds _ _ _ _ _ _ _ _ hsome

/-- C6 witness: the score bound applied to the top recommendation of a
concrete context (Loam, 25°C, 1000mm, April, Medium budget, all crops except
Maize excluded). -/
theorem suitability_score_bounds_witness :
    0 ≤ ((get_crop_recommendations ("here") ("Loam") ⟨some 25, some 1000⟩ 1 ("Medium")
        (some ["Rice", "Wheat", "Soybeans", "Tomatoes", "Potatoes", "Cotton", "Sunflower",
               "Beans", "Cassava"])
        ⟨4, fun _ => 0, fun _ _ => 0⟩).headD default).suitability ∧
      ((get_crop_recommendations ("here") ("Loam") ⟨some 25, some 1000⟩ 1 ("Medium")
        (some ["Rice", "Wheat", "Soybeans", "Tomatoes", "Potatoes", "Cotton", "Sunflower",
               "Beans", "Cassava"])
        ⟨4, fun _ => 0, fun _ _ => 0⟩).headD default).suitability ≤ 100 := by
  have hne : get_crop_recommendations ("here") ("Loam") ⟨some 25, some 1000⟩ 1 ("Medium")
      (some ["Rice", "Wheat", "Soybeans", "Tomatoes", "Potatoes", "Cotton", "Sunflower",
             "Beans", "Cassava"])
      ⟨4, fun _ => 0, fun _ _ => 0⟩ ≠ [] := by decide
  have hmem : (get_crop_recommendations ("here") ("Loam") ⟨some 25, some 1000⟩ 1 ("Medium")
      (some ["Rice", "Wheat", "Soybeans", "Tomatoes", "Potatoes", "Cotton", "Sunflower",
             "Beans", "Cassava"])
      ⟨4, fun _ => 0, fun _ _ => 0⟩).headD default ∈
      get_crop_recommendations ("here") ("Loam") ⟨some 25, some 1000⟩ 1 ("Medium")
      (some ["Rice", "Wheat", "Soybeans", "Tomatoes", "Potatoes", "Cotton", "Sunflower",
             "Beans", "Cassava"])
      ⟨4, fun _ => 0, fun _ _ => 0⟩ := by
    cases hl : get_crop_recommendations ("here") ("Loam") ⟨some 25, some 1000⟩ 1 ("Medium")
        (some ["Rice", "Wheat", "Soybeans", "Tomatoes", "Potatoes", "Cotton", "Sunflower",
               "Beans", "Cassava"])
        ⟨4, fun _ => 0, fun _ _ => 0⟩ with
    | nil => exact absurd hl hne
    | cons a t => simp
  exact suitability_score_bounds _ _ _ _ _ _ _ _ hmem

/-- C3 counterexample: `get_crop_recommendations` is not a deterministic
function of its arguments alone.  With identical arguments, two ambient
environments that differ only in the unseeded random draw (index 0 versus 5
into the weighted market-demand population) produce different outputs — the
surviving Maize recommendation carries market demand `Medium` in one run and
`High` in the other. -/
theorem score_determinism_counterexample :
    get_crop_recommendations ("here") ("Loam") ⟨some 25, some 1000⟩ 1 ("Medium")
      (some ["Rice", "Wheat", "Soybeans", "Tomatoes", "Potatoes", "Cotton", "Sunflower",
             "Beans", "Cassava"])
      ⟨4, fun _ => 0, fun _ _ => 0⟩ ≠
    get_crop_recommendations ("here") ("Loam") ⟨some 25, some 1000⟩ 1 ("Medium")
      (some ["Rice", "Wheat", "Soybeans", "Tomatoes", "Potatoes", "Cotton", "Sunflower",
             "Beans", "Cassava"])
      ⟨4, fun _ => 5, fun _ _ => 0⟩ := by decide

/-- C3 (amended): once the ambient state that `get_crop_recommendations`
reads — the current month (`datetime.now`) and the unseeded random draws for
market demand and price trend — is fixed, crop scoring is a deterministic
function of its arguments; the other engine functions take no ambient state
at all in this embedding and are pure functions of their arguments. -/
theorem engine_determinism_fixed_environment (e1 e2 : RandEnv)
    (hm : e1.month = e2.month) (hc : e1.choice = e2.choice) (hw : e1.choicesW = e2.choicesW)
    (location soil_type : String) (climate_data : ClimateData) (land_size : ℚ)
    (budget_level : String) (previous_crops : Option (List String)) :
    get_crop_recommendations location soil_type climate_data land_size budget_level
      previous_crops e1 =
    get_crop_recommendations location soil_type climate_data land_size budget_level
      previous_crops e2 := by
  cases e1
  cases e2
  cases hm
  cases hc
  cases hw
  rfl

/-- C3 witness: the fixed-environment determinism theorem at a concrete
environment and context. -/
theorem engine_determinism_fixed_environment_witness :
    get_crop_recommendations ("here") ("Loam") ⟨some 25, some 1000⟩ 1 ("Medium") none
      ⟨4, fun _ => 0, fun _ _ => 0⟩ =
    get_crop_recommendations ("here") ("Loam") ⟨some 25, some 1000⟩ 1 ("Medium") none
      ⟨4, fun _ => 0, fun _ _ => 0⟩ := by
  exact engine_determinism_fixed_environment ⟨4, fun _ => 0, fun _ _ => 0⟩
    ⟨4, fun _ => 0, fun _ _ => 0⟩ rfl rfl rfl ("here") ("Loam") ⟨some 25, some 1000⟩ 1
    ("Medium") none

/-! ## Lemmas about the efficiency analyzer -/

theorem sumL_inf_mem {l : List PVal} (h : PVal.inf ∈ l) : PVal.sumL l = PVal.inf := by
  induction l with
  | nil => cases h
  | cons a t ih =>
      rcases List.mem_cons.1 h with h1 | h1
      · show PVal.add a (PVal.sumL t) = PVal.inf
        rw [← h1]
        cases PVal.sumL t <;> rfl
      · show PVal.add a (PVal.sumL t) = PVal.inf
        rw [ih h1]
        cases a <;> rfl

theorem meanL_inf_mem {l : List PVal} (h : PVal.inf ∈ l) : PVal.meanL l = PVal.inf := by
  rw [PVal.meanL, sumL_inf_mem h]
  rfl

theorem usage_suffix_ne (s : String) : s ++ "_usage" ≠ "Water_per_yield" := by
  intro h
  have hd : s.data ++ ("_usage" : String).data = ("Water_per_yield" : String).data := by
    rw [← String.data_append, h]
  have hlast : (s.data ++ ("_usage" : String).data).getLast? =
      ("Water_per_yield" : String).data.getLast? := by rw [hd]
  rw [List.getLast?_append,
    (by decide : ("_usage" : String).data.getLast? = some 'e'), Option.or_some] at hlast
  exact absurd hlast (by decide)

theorem per_hectare_suffix_ne (s : String) : s ++ "_per_hectare" ≠ "Water_per_yield" := by
  intro h
  have hd : s.data ++ ("_per_hectare" : String).data = ("Water_per_yield" : String).data := by
    rw [← String.data_append, h]
  have hlast : (s.data ++ ("_per_hectare" : String).data).getLast? =
      ("Water_per_yield" : String).data.getLast? := by rw [hd]
  rw [List.getLast?_append,
    (by decide : ("_per_hectare" : String).data.getLast? = some 'e'), Option.or_some] at hlast
  exact absurd hlast (by decide)

theorem per_yield_suffix_inj (s : String) (h : s ++ "_per_yield" = "Water_per_yield") :
    s = "Water" := by
  have hd : s.data ++ ("_per_yield" : String).data =
      ("Water" : String).data ++ ("_per_yield" : String).data := by
    rw [← String.data_append, ← String.data_append, h]
    rfl
  exact String.ext (List.append_inj' hd rfl).1

theorem metricsEntries_lookup_water_py (area ty : ℚ) (fu : List (String × String × ℚ))
    (hw : ∃ g ∈ fu, g.2.1 = "Water") (hty : ¬ 0 < ty) :
    lookupA (metricsEntries area ty fu) ("Water_per_yield") = some (MVal.num PVal.inf) := by
  induction fu with
  | nil => rcases hw with ⟨g, hg, _⟩; cases hg
  | cons g t ih =>
      unfold metricsEntries
      rw [List.flatMap_cons]
      simp only [List.cons_append, List.nil_append]
      by_cases hg : g.2.1 = "Water"
      · rw [hg]
        rw [lookupA_cons,
          if_neg ((by decide : ¬(("Water" : String) ++ "_usage" = "Water_per_yield")))]
        rw [lookupA_cons,
          if_neg ((by decide : ¬(("Water" : String) ++ "_per_hectare" = "Water_per_yield")))]
        rw [lookupA_cons,
          if_pos ((by decide : (("Water" : String) ++ "_per_yield" = "Water_per_yield")))]
        rw [if_neg hty]
      · rw [lookupA_cons, if_neg (fun he => usage_suffix_ne g.2.1 he)]
        rw [lookupA_cons, if_neg (fun he => per_hectare_suffix_ne g.2.1 he)]
        rw [lookupA_cons, if_neg (fun he => hg (per_yield_suffix_inj g.2.1 he))]
        have hw2 : ∃ g2 ∈ t, g2.2.1 = "Water" := by
          rcases hw with ⟨g2, hg2, hgw⟩
          rcases List.mem_cons.1 hg2 with h1 | h1
          · exact absurd (h1 ▸ hgw) hg
          · exact ⟨g2, h1, hgw⟩
        exact ih hw2

theorem lookupA_filterMap_of_find {α β : Type} {l : List (String × α)}
    {h : String × α → Option (String × β)} {k : String} {x : String × α} {y : String × β}
    (hkey : ∀ p z, h p = some z → z.1 = p.1)
    (hfind : l.find? (fun p => decide (p.1 = k)) = some x) (hx : h x = some y) :
    lookupA (l.filterMap h) k = some y.2 := by
  induction l with
  | nil => cases hfind
  | cons a t ih =>
      rw [List.find?_cons] at hfind
      by_cases ha : a.1 = k
      · simp [ha] at hfind
        have hax : a = x := hfind
        subst hax
        rw [List.filterMap_cons, hx, lookupA_cons,
          if_pos (by rw [hkey a y hx]; exact ha)]
      · simp [ha] at hfind
        rw [List.filterMap_cons]
        rcases hz : h a with _ | z
        · exact ih hfind
        · rw [lookupA_cons, if_neg (by rw [hkey a z hz]; exact ha)]
          exact ih hfind

theorem fieldOutOf_fid (grouped : List (String × String × ℚ)) (yields : List YieldRow)
    (p : String × FieldInfo) (o : FieldOut) (h : fieldOutOf grouped yields p = some o) :
    o.fid = p.1 := by
  unfold fieldOutOf at h
  dsimp only at h
  split_ifs at h
  cases h
  rfl

theorem benchmarks_water_py (l1 l2 l3 l4 l5 : List PVal) (h4 : l4 ≠ []) :
    lookupA (([("water_per_hectare", l1), ("fertilizer_per_hectare", l2),
        ("yield_per_hectare", l3), ("water_per_yield", l4), ("fertilizer_per_yield", l5)] :
          List (String × List PVal)).filterMap (fun m =>
        if m.2 = [] then none
        else some (m.1, BenchStats.mk (PVal.meanL m.2) (PVal.minL m.2) (PVal.maxL m.2))))
      ("water_per_yield") =
      some (BenchStats.mk (PVal.meanL l4) (PVal.minL l4) (PVal.maxL l4)) := by
  simp only [List.filterMap_cons, List.filterMap_nil]
  by_cases h1 : l1 = [] <;> by_cases h2 : l2 = [] <;> by_cases h3 : l3 = [] <;>
    simp [h1, h2, h3, h4, lookupA_cons]

/-! ## Claim theorems: efficiency analyzer -/

/-- C8 counterexample: the infinity sentinel IS propagated into the fleet
benchmark averages.  For a single field with Water usage 10 and total yield
0, the per-yield metric is the sentinel (no division error), but that
sentinel is appended to `overall_metrics['water_per_yield']` and `np.mean`
over it makes the benchmark average itself infinity, contradicting the
claim's "not propagated into further arithmetic such as the fleet benchmark
averages". -/
theorem efficiency_inf_propagation_counterexample :
    ((lookupA (calculate_resource_efficiency [⟨"F1", "Water", 10⟩] [⟨"F1", 0⟩]
        [("F1", ⟨1, "Maize"⟩)]).field_metrics ("F1")).bind
      (fun m => lookupA m ("Water_per_yield"))) = some (MVal.num PVal.inf) ∧
    (lookupA (calculate_resource_efficiency [⟨"F1", "Water", 10⟩] [⟨"F1", 0⟩]
        [("F1", ⟨1, "Maize"⟩)]).benchmarks ("water_per_yield")).map
      (fun b => b.average) = some PVal.inf := by
  exact ⟨by decide, by decide⟩

/-- C8 (amended): for every input in which a field (present in `field_data`
with positive area) has a Water usage row and a nonempty set of yield rows
summing to 0, the field's per-yield Water metric is reported as the
undefined/infinity sentinel — no division-by-zero is raised — but the
sentinel does flow on into the per-yield fleet benchmark: the
`water_per_yield` benchmark average becomes the sentinel as well.  (The
benchmark-comparison scores read only per-hectare and yield-per-hectare
entries, so they are not affected.) -/
theorem efficiency_zero_yield_sentinel
    (resource_usage : List UsageRow) (yields : List YieldRow)
    (field_data : List (String × FieldInfo)) (f : String) (info : FieldInfo) (u : UsageRow)
    (hfd : lookupA field_data f = some info)
    (harea : 0 < info.area_size)
    (hu : u ∈ resource_usage) (huf : u.field_id = f) (hurt : u.resource_type = "Water")
    (hyne : yields.filter (fun y => decide (y.field_id = f)) ≠ [])
    (hty : ((yields.filter (fun y => decide (y.field_id = f))).map
      (fun y => y.yield_amount)).sum = 0) :
    ((lookupA (calculate_resource_efficiency resource_usage yields field_data).field_metrics
        f).bind (fun m => lookupA m ("Water_per_yield"))) = some (MVal.num PVal.inf) ∧
    (lookupA (calculate_resource_efficiency resource_usage yields field_data).benchmarks
        ("water_per_yield")).map (fun b => b.average) = some PVal.inf := by
  have hune : resource_usage ≠ [] := by
    intro h
    rw [h] at hu
    cases hu
  have hyne0 : yields ≠ [] := by
    intro h
    rw [h] at hyne
    exact hyne rfl
  have hkey : (f, "Water") ∈ usageKeys resource_usage := by
    rw [usageKeys, List.mem_dedup]
    exact List.mem_map.2 ⟨u, hu, by rw [huf, hurt]⟩
  have hgm : ((f, ("Water", usageSum resource_usage f ("Water"))) :
      String × String × ℚ) ∈ groupUsage resource_usage :=
    List.mem_map.2 ⟨(f, "Water"), hkey, rfl⟩
  have hgmf : ((f, ("Water", usageSum resource_usage f ("Water"))) :
      String × String × ℚ) ∈
      (groupUsage resource_usage).filter (fun g => decide (g.1 = f)) :=
    List.mem_filter.2 ⟨hgm, by simp⟩
  have hfune : (groupUsage resource_usage).filter (fun g => decide (g.1 = f)) ≠ [] := by
    intro h
    rw [h] at hgmf
    cases hgmf
  have hty' : ¬ (0 : ℚ) < ((yields.filter (fun y => decide (y.field_id = f))).map
      (fun y => y.yield_amount)).sum := by
    rw [hty]
    exact lt_irrefl 0
  have hfind := find?_pair_of_lookupA hfd
  have hout : fieldOutOf (groupUsage resource_usage) yields (f, info) =
      some (fieldOutRecord (f, info)
        ((groupUsage resource_usage).filter (fun g => decide (g.1 = f)))
        (((yields.filter (fun y => decide (y.field_id = f))).map
          (fun y => y.yield_amount)).sum)) := by
    unfold fieldOutOf
    dsimp only
    rw [if_neg]
    simp only [not_or]
    exact ⟨hfune, hyne, not_le.2 harea⟩
  have hkeyfun : ∀ (p : String × FieldInfo) (z : String × List (String × MVal)),
      (fieldOutOf (groupUsage resource_usage) yields p).map
        (fun o => (o.fid, o.metrics)) = some z → z.1 = p.1 := by
    intro p z hz
    rcases ho : fieldOutOf (groupUsage resource_usage) yields p with _ | o
    · rw [ho] at hz
      cases hz
    · rw [ho] at hz
      have hz2 : (o.fid, o.metrics) = z := by simpa using hz
      rw [← hz2]
      exact fieldOutOf_fid _ _ _ _ ho
  have hinf : PVal.inf ∈ (fieldOutRecord (f, info)
      ((groupUsage resource_usage).filter (fun g => decide (g.1 = f)))
      (((yields.filter (fun y => decide (y.field_id = f))).map
        (fun y => y.yield_amount)).sum)).waterPY := by
    unfold fieldOutRecord
    dsimp only
    refine List.mem_filterMap.2 ⟨(f, ("Water", usageSum resource_usage f ("Water"))),
      hgmf, ?_⟩
    rw [if_pos rfl, if_neg hty']
  unfold calculate_resource_efficiency
  rw [if_neg (by simp only [not_or]; exact ⟨hune, hyne0⟩)]
  dsimp only
  constructor
  · rw [List.map_filterMap]
    rw [lookupA_filterMap_of_find hkeyfun hfind
      (by rw [hout]; rfl : (fieldOutOf (groupUsage resource_usage) yields (f, info)).map
        (fun o => (o.fid, o.metrics)) = some ((fieldOutRecord (f, info)
          ((groupUsage resource_usage).filter (fun g => decide (g.1 = f)))
          (((yields.filter (fun y => decide (y.field_id = f))).map
            (fun y => y.yield_amount)).sum)).fid,
          (fieldOutRecord (f, info)
            ((groupUsage resource_usage).filter (fun g => decide (g.1 = f)))
            (((yields.filter (fun y => decide (y.field_id = f))).map
              (fun y => y.yield_amount)).sum)).metrics))]
    rw [Option.some_bind]
    unfold fieldOutRecord
    dsimp only
    simp only [List.cons_append, List.nil_append]
    rw [lookupA_cons, if_neg ((by decide : ¬(("field_id" : String) = "Water_per_yield")))]
    rw [lookupA_cons, if_neg ((by decide : ¬(("crop" : String) = "Water_per_yield")))]
    rw [lookupA_cons, if_neg ((by decide : ¬(("area" : String) = "Water_per_yield")))]
    rw [lookupA_cons, if_neg ((by decide : ¬(("total_yield" : String) = "Water_per_yield")))]
    rw [lookupA_cons,
      if_neg ((by decide : ¬(("yield_per_hectare" : String) = "Water_per_yield")))]
    exact metricsEntries_lookup_water_py _ _ _
      ⟨(f, ("Water", usageSum resource_usage f ("Water"))), hgmf, rfl⟩ hty'
  · have hmemf : (f, info) ∈ field_data := List.mem_of_find?_eq_some hfind
    have hproc : fieldOutRecord (f, info)
        ((groupUsage resource_usage).filter (fun g => decide (g.1 = f)))
        (((yields.filter (fun y => decide (y.field_id = f))).map
          (fun y => y.yield_amount)).sum) ∈
        field_data.filterMap (fieldOutOf (groupUsage resource_usage) yields) :=
      List.mem_filterMap.2 ⟨(f, info), hmemf, hout⟩
    have hinfw : PVal.inf ∈
        (field_data.filterMap (fieldOutOf (groupUsage resource_usage) yields)).flatMap
          (fun o => o.waterPY) :=
      List.mem_flatMap.2 ⟨_, hproc, hinf⟩
    have hwne : (field_data.filterMap (fieldOutOf (groupUsage resource_usage) yields)).flatMap
        (fun o => o.waterPY) ≠ [] := List.ne_nil_of_mem hinfw
    rw [benchmarks_water_py _ _ _ _ _ hwne]
    rw [Option.map_some']
    show some (PVal.meanL _) = some PVal.inf
    rw [meanL_inf_mem hinfw]

/-- C8 witness: the amended sentinel theorem at the concrete degenerate
input (one field, Water usage 10, yield 0, area 1). -/
theorem efficiency_zero_yield_sentinel_witness :
    ((lookupA (calculate_resource_efficiency [⟨"F1", "Water", 10⟩] [⟨"F1", 0⟩]
        [("F1", ⟨1, "Wheat"⟩)]).field_metrics ("F1")).bind
      (fun m => lookupA m ("Water_per_yield"))) = some (MVal.num PVal.inf) ∧
    (lookupA (calculate_resource_efficiency [⟨"F1", "Water", 10⟩] [⟨"F1", 0⟩]
        [("F1", ⟨1, "Wheat"⟩)]).benchmarks ("water_per_yield")).map
      (fun b => b.average) = some PVal.inf := by
  exact efficiency_zero_yield_sentinel [⟨"F1", "Water", 10⟩] [⟨"F1", 0⟩]
    [("F1", ⟨1, "Wheat"⟩)] ("F1") ⟨1, "Wheat"⟩ ⟨"F1", "Water", 10⟩
    (by decide) (by decide) (by decide) (by decide) (by decide) (by decide) (by decide)

/-! ## Claim theorems: rotation planner (spec-modelled) -/

/-- C9 counterexample (spec-modelled): with current crops Maize (Grain,
HeavyFeeder) and Beans (Legume, NitrogenFixer), the successor categories are
{NitrogenFixer, HeavyFeeder} — both already present — so the unique
score-100 suggestion Potatoes (RootCrop, HeavyFeeder) has a nutrient
category that is NOT absent from the current-crop set, refuting the claim
even though a compatible alternative exists. -/
theorem rotation_diversification_counterexample :
    get_rotation_suggestions ["Maize", "Beans"]
      [⟨"Maize", .Grain, .HeavyFeeder⟩, ⟨"Beans", .Legume, .NitrogenFixer⟩,
       ⟨"Potatoes", .RootCrop, .HeavyFeeder⟩] =
      [⟨"Potatoes", .RootCrop, .HeavyFeeder, 100⟩] ∧
    NutrientCat.HeavyFeeder ∈ rotCurCats ["Maize", "Beans"]
      [⟨"Maize", .Grain, .HeavyFeeder⟩, ⟨"Beans", .Legume, .NitrogenFixer⟩,
       ⟨"Potatoes", .RootCrop, .HeavyFeeder⟩] := by
  exact ⟨by decide, by decide⟩

/-- C9 (amended, spec-modelled): every score-100 rotation suggestion has a
plant family absent from the current-crop set, and a nutrient category
absent from it as well provided the current crops do not already span a
successor pair (a HeavyFeeder together with a NitrogenFixer).  Without that
proviso the successor category can coincide with a current category, as the
counterexample shows. -/
theorem rotation_diversification_amended (currentCrops : List String)
    (table : List RotProfile) (s : RotationSuggestion)
    (hs : s ∈ get_rotation_suggestions currentCrops table)
    (hscore : s.score = 100)
    (hmix : ¬(NutrientCat.HeavyFeeder ∈ rotCurCats currentCrops table ∧
              NutrientCat.NitrogenFixer ∈ rotCurCats currentCrops table)) :
    s.family ∉ rotCurFams currentCrops table ∧ s.ncat ∉ rotCurCats currentCrops table := by
  unfold get_rotation_suggestions at hs
  dsimp only at hs
  have hs2 := List.mem_of_mem_take hs
  split_ifs at hs2 with h1 h2
  · rcases List.mem_map.1 hs2 with ⟨p, hp, hsp⟩
    rcases List.mem_filter.1 hp with ⟨hpc, hcond⟩
    obtain ⟨hfam, hcat⟩ := of_decide_eq_true hcond
    subst hsp
    constructor
    · have hf2 := (List.mem_filter.1 hfam).2
      simpa using hf2
    · show p.ncat ∉ rotCurCats currentCrops table
      rcases List.mem_flatMap.1 hcat with ⟨c, hcmem, hin⟩
      cases c with
      | HeavyFeeder =>
          have hpn : p.ncat = NutrientCat.NitrogenFixer := by simpa [succCats] using hin
          intro hmemcat
          exact hmix ⟨hcmem, hpn ▸ hmemcat⟩
      | NitrogenFixer =>
          have hpn : p.ncat = NutrientCat.HeavyFeeder := by simpa [succCats] using hin
          intro hmemcat
          exact hmix ⟨hpn ▸ hmemcat, hcmem⟩
      | MediumFeeder =>
          have := (List.mem_filter.1 (by simpa [succCats] using hin :
            p.ncat ∈ [NutrientCat.LightFeeder, NutrientCat.MediumFeeder].filter
              (fun k => decide (k ∉ rotCurCats currentCrops table)))).2
          simpa using this
      | LightFeeder =>
          have := (List.mem_filter.1 (by simpa [succCats] using hin :
            p.ncat ∈ [NutrientCat.LightFeeder, NutrientCat.MediumFeeder].filter
              (fun k => decide (k ∉ rotCurCats currentCrops table)))).2
          simpa using this
  · rcases List.mem_map.1 hs2 with ⟨p, hp, hsp⟩
    subst hsp
    simp at hscore
  · rcases List.mem_map.1 hs2 with ⟨p, hp, hsp⟩
    subst hsp
    simp at hscore

/-- C9 witness: with only Maize (Grain, HeavyFeeder) grown, the score-100
suggestion Beans (Legume, NitrogenFixer) diversifies both attributes. -/
theorem rotation_diversification_amended_witness :
    RotationSuggestion.family ⟨"Beans", .Legume, .NitrogenFixer, 100⟩ ∉
      rotCurFams ["Maize"]
        [⟨"Maize", .Grain, .HeavyFeeder⟩, ⟨"Beans", .Legume, .NitrogenFixer⟩,
         ⟨"Potatoes", .RootCrop, .HeavyFeeder⟩] ∧
    RotationSuggestion.ncat ⟨"Beans", .Legume, .NitrogenFixer, 100⟩ ∉
      rotCurCats ["Maize"]
        [⟨"Maize", .Grain, .HeavyFeeder⟩, ⟨"Beans", .Legume, .NitrogenFixer⟩,
         ⟨"Potatoes", .RootCrop, .HeavyFeeder⟩] := by
  exact rotation_diversification_amended ["Maize"]
    [⟨"Maize", .Grain, .HeavyFeeder⟩, ⟨"Beans", .Legume, .NitrogenFixer⟩,
     ⟨"Potatoes", .RootCrop, .HeavyFeeder⟩]
    ⟨"Beans", .Legume, .NitrogenFixer, 100⟩ (by decide) (by decide) (by decide)
